import Mathlib

/-!
# Cocktail API: a shallow embedding of the Express application

The development follows `src/server.js` and the three routers under
`src/routes/`.  JavaScript values are a small inductive type, each promise
returned by a collaborator (the Sequelize models, bcrypt, jsonwebtoken) is an
outcome supplied by a `World`, and a handler is a function that extends the
trace of a response object with the calls it makes and the answers it sends.
-/

namespace CocktailApi

/-! ## JavaScript values -/

/-- JSON-like JavaScript values.  `num n` is the number of integral value
`n`, which is a double (every integer up to `2^53` in magnitude is one, and
`toDouble` gives what a larger numeral denotes); `infinity` is `Infinity` or,
when `negative` is set, `-Infinity`; `nan` is `NaN`.  Numbers with a
fractional part are not among the values. -/
inductive JsVal where
  | undefined : JsVal
  | null : JsVal
  | bool (b : Bool) : JsVal
  | num (n : Int) : JsVal
  | infinity (negative : Bool) : JsVal
  | nan : JsVal
  | str (s : String) : JsVal
  | arr (items : List JsVal) : JsVal
  | obj (fields : List (String × JsVal)) : JsVal
  deriving Inhabited

namespace JsVal

/-- JavaScript truthiness (`!v` is `!(truthy v)`). -/
def truthy : JsVal → Bool
  | undefined => false
  | null => false
  | bool b => b
  | num n => n != 0
  | infinity _ => true
  | nan => false
  | str s => s != ""
  | arr _ => true
  | obj _ => true

/-- Value of `v === null`. -/
def isNull : JsVal → Bool
  | null => true
  | _ => false

/-- Property lookup in a field list. -/
def lookup (k : String) : List (String × JsVal) → JsVal
  | [] => undefined
  | (k', v) :: rest => if k' = k then v else lookup k rest

/-- Property read `v.k` (also what destructuring `const { k } = v` binds):
`undefined` when the property is absent. -/
def get (v : JsVal) (k : String) : JsVal :=
  match v with
  | obj fields => lookup k fields
  | _ => undefined

/-- Assignment in a field list: an existing property keeps its place. -/
def assign (k : String) (x : JsVal) : List (String × JsVal) → List (String × JsVal)
  | [] => [(k, x)]
  | (k', v) :: rest => if k' = k then (k, x) :: rest else (k', v) :: assign k x rest

/-- Property write `v.k = x` on an object. -/
def set (v : JsVal) (k : String) (x : JsVal) : JsVal :=
  match v with
  | obj fields => obj (assign k x fields)
  | other => other

end JsVal

open JsVal

/-! ## `parseInt` -/

/-- White space and line terminators skipped by `parseInt`. -/
def isStrWhiteSpace (c : Char) : Bool :=
  let n := c.toNat
  n = 9 || n = 10 || n = 11 || n = 12 || n = 13 || n = 32 || n = 160 ||
  n = 5760 || (8192 ≤ n && n ≤ 8202) || n = 8232 || n = 8233 || n = 8239 ||
  n = 8287 || n = 12288 || n = 65279

/-- Value of a character as a digit of the given radix (10 or 16). -/
def digitValue (radix : Nat) (c : Char) : Option Nat :=
  let n := c.toNat
  if 48 ≤ n ∧ n ≤ 57 then some (n - 48)
  else if radix = 16 ∧ 97 ≤ n ∧ n ≤ 102 then some (n - 87)
  else if radix = 16 ∧ 65 ≤ n ∧ n ≤ 70 then some (n - 55)
  else none

/-- Reads the longest prefix of digits: `acc` is the value read so far and
`seen` tells whether any digit was read. -/
def readDigits (radix : Nat) : List Char → Nat → Bool → Option Nat
  | [], acc, seen => if seen then some acc else none
  | c :: cs, acc, seen =>
    match digitValue radix c with
    | some d => readDigits radix cs (acc * radix + d) true
    | none => if seen then some acc else none

/-- Strips the sign: the sign is negative exactly for a leading `-`. -/
def splitSign : List Char → Bool × List Char
  | '-' :: cs => (true, cs)
  | '+' :: cs => (false, cs)
  | cs => (false, cs)

/-- Strips a `0x` / `0X` prefix and selects the radix. -/
def splitRadix : List Char → Nat × List Char
  | '0' :: 'x' :: cs => (16, cs)
  | '0' :: 'X' :: cs => (16, cs)
  | cs => (10, cs)

/-- Number of binary digits of `n`, on a fuel that bounds it. -/
def bitLengthAux : Nat → Nat → Nat
  | 0, _ => 0
  | fuel + 1, n => if n = 0 then 0 else bitLengthAux fuel (n / 2) + 1

/-- Number of binary digits of `n`. -/
def bitLength (n : Nat) : Nat := bitLengthAux n n

/-- The double that a natural number denotes: the number itself below `2^53`,
and above it the nearest number with 53 significant binary digits, a tie going
to the even one; none stands for `Infinity`, reached when the rounded value
needs more than 1024 binary digits. -/
def toDouble (n : Nat) : Option Nat :=
  if n < 2 ^ 53 then some n
  else
    let shift := bitLength n - 53
    let q := n / 2 ^ shift
    let r := n % 2 ^ shift
    let half := 2 ^ (shift - 1)
    let rounded := if half < r ∨ (r = half ∧ q % 2 = 1) then q + 1 else q
    if bitLength (rounded * 2 ^ shift) ≤ 1024 then some (rounded * 2 ^ shift) else none

/-- The number with the given sign and magnitude: the double of the
magnitude, or an infinity. -/
def signedNumber (neg : Bool) (n : Nat) : JsVal :=
  match toDouble n with
  | none => infinity neg
  | some d => if neg then num (-(d : Int)) else num d

/-- Value of `parseInt` on what follows the sign: the digits read, in the
radix the prefix selects, denote an integer; with no digit the value is
`NaN`. -/
def parseUnsigned (neg : Bool) (unsigned : List Char) : JsVal :=
  match readDigits (splitRadix unsigned).1 (splitRadix unsigned).2 0 false with
  | none => nan
  | some n => signedNumber neg n

/-- Value of `parseInt(s)` with no radix argument, on the characters of `s`. -/
def parseIntChars (cs : List Char) : JsVal :=
  let trimmed := cs.dropWhile isStrWhiteSpace
  parseUnsigned (splitSign trimmed).1 (splitSign trimmed).2

/-- Value of `parseInt(s)` as called by the handlers. -/
def parseInt (s : String) : JsVal := parseIntChars s.toList

/-- Value of `parseInt(process.env.X)`: an unset variable is `undefined`,
whose string form has no digits. -/
def parseIntEnv : Option String → JsVal
  | none => nan
  | some s => parseInt s

/-- Value of `process.env.X`. -/
def envVal : Option String → JsVal
  | none => undefined
  | some s => str s

/-! ## String conversion (template literals) -/

/-- Drops the zeros that end a list of digits. -/
def stripZeros : List Char → List Char
  | [] => []
  | c :: cs =>
    match stripZeros cs with
    | [] => if c = '0' then [] else [c]
    | rest => c :: rest

/-- Searches the fewest digits that denote the double `x`: with `k` digits
kept, the multiples of the power of ten just below and just above `x` are
tried; of two that both denote `x` the closer wins, and on a tie the even
one.  The result is the digits kept and the power of ten. -/
def shortestAux (x len : Nat) : Nat → Nat → Nat × Nat
  | 0, _ => (x, 0)
  | fuel + 1, k =>
    let j := len - k
    let lo := x / 10 ^ j
    let hi := lo + 1
    let okLo := toDouble (lo * 10 ^ j) == some x
    let okHi := toDouble (hi * 10 ^ j) == some x
    if okLo && okHi then
      let dLo := x - lo * 10 ^ j
      let dHi := hi * 10 ^ j - x
      if dLo < dHi then (lo, j)
      else if dHi < dLo then (hi, j)
      else if lo % 2 = 0 then (lo, j) else (hi, j)
    else if okLo then (lo, j)
    else if okHi then (hi, j)
    else shortestAux x len fuel (k + 1)

/-- String form of a non-negative integral double (`Number::toString`): the
fewest digits that denote it, followed by zeros up to 21 digits, and in
exponent form beyond. -/
def natToString (x : Nat) : String :=
  if x = 0 then "0"
  else
    let len := (Nat.toDigits 10 x).length
    let (s, j) := shortestAux x len len 1
    let all := Nat.toDigits 10 s
    let digits := stripZeros all
    let n := all.length + j
    if n ≤ 21 then String.mk (digits ++ List.replicate (n - digits.length) '0')
    else
      match digits with
      | [] => "0"
      | [d] => String.mk ([d] ++ "e+".toList ++ Nat.toDigits 10 (n - 1))
      | d :: rest => String.mk (d :: '.' :: rest ++ "e+".toList ++ Nat.toDigits 10 (n - 1))

/-- String form of an integral double. -/
def numberToString (n : Int) : String :=
  if n < 0 then "-" ++ natToString n.natAbs else natToString n.natAbs

mutual
/-- String form of a value, as a template literal computes it. -/
def JsVal.toStr : JsVal → String
  | .undefined => "undefined"
  | .null => "null"
  | .bool true => "true"
  | .bool false => "false"
  | .num n => numberToString n
  | .infinity false => "Infinity"
  | .infinity true => "-Infinity"
  | .nan => "NaN"
  | .str s => s
  | .arr items => JsVal.joinStr items
  | .obj _ => "[object Object]"
/-- String form of array items joined by commas; `null` and `undefined`
items contribute the empty string. -/
def JsVal.joinStr : List JsVal → String
  | [] => ""
  | [.null] => ""
  | [.undefined] => ""
  | [x] => JsVal.toStr x
  | .null :: rest => "," ++ JsVal.joinStr rest
  | .undefined :: rest => "," ++ JsVal.joinStr rest
  | x :: rest => JsVal.toStr x ++ "," ++ JsVal.joinStr rest
end

/-! ## Collaborators -/

/-- Settled state of a promise. -/
inductive Outcome (α : Type) where
  | resolve (a : α) : Outcome α
  | reject (err : JsVal) : Outcome α

/-- The two Sequelize models. -/
inductive Model where
  | User : Model
  | Cocktail : Model
  deriving DecidableEq, Repr

/-- Route handlers of the application. -/
inductive Handler where
  | root | notImplemented | login
  | userList | userGet | userCreate | userPatch | userUntrash | userTrash | userDelete
  | cocktailList | cocktailGet | cocktailCreate | cocktailPatch | cocktailUntrash
  | cocktailTrash | cocktailDelete
  deriving DecidableEq, Repr

/-- Calls and answers a request gives rise to, in the order they happen. -/
inductive Effect where
  /-- The `console.log` of a router's time logger. -/
  | log (tag : String) : Effect
  /-- The token guard is entered. -/
  | guard : Effect
  /-- A route handler is entered. -/
  | handler (h : Handler) : Effect
  /-- Call of `Model.findAll()`. -/
  | findAll (m : Model) : Effect
  /-- Call of `Model.findOne` with `where: key = val` and `raw: true`. -/
  | findOne (m : Model) (key : String) (val : JsVal) : Effect
  /-- Call of `Model.create(values)`. -/
  | create (m : Model) (values : JsVal) : Effect
  /-- Call of `Model.update(values, ...)` with `where: id`. -/
  | update (m : Model) (values : JsVal) (id : JsVal) : Effect
  /-- Call of `Model.restore` with `where: id`. -/
  | restore (m : Model) (id : JsVal) : Effect
  /-- Call of `Model.destroy` with `where: id`, and with `force: true` when
  `force` is set. -/
  | destroy (m : Model) (id : JsVal) (force : Bool) : Effect
  /-- Call of `bcrypt.compare(data, hash)`. -/
  | compare (data hash : JsVal) : Effect
  /-- Call of `bcrypt.hash(data, rounds)`. -/
  | hash (data rounds : JsVal) : Effect
  /-- Call of `jwt.sign(payload, secret, options)` with `expiresIn` as the
  only option. -/
  | sign (payload secret expiresIn : JsVal) : Effect
  /-- A response leaves with this status and body. -/
  | send (status : Nat) (body : JsVal) : Effect
  /-- A send on a response that was already sent: Express raises
  `ERR_HTTP_HEADERS_SENT` and nothing more reaches the client. -/
  | headersSent (status : Nat) (body : JsVal) : Effect
  /-- The interactive documentation mounted on `/api-docs` answers. -/
  | swaggerUi : Effect
  /-- No layer answered: Express's final handler answers 404. -/
  | finalhandler : Effect

/-- Reasons for which the token guard rejects a request. -/
inductive GuardFailure where
  | noToken | invalidSignature | expired
  deriving DecidableEq, Repr

/-- Result of verifying a token's signature and expiry. -/
inductive TokenCheck where
  | valid (claims : JsVal) : TokenCheck
  | invalidSignature : TokenCheck
  | expired : TokenCheck

/-- Everything outside the handlers: the store behind the Sequelize models,
bcrypt, jsonwebtoken and the process environment.  Each field gives the
settled state of the promise a call returns (for `jwt.sign`, which is
synchronous, the token or the exception thrown).  `findOne` resolves to
`none` for `null` and to the raw row otherwise; `verify` and `guardBody`
stand for what the token guard needs from jsonwebtoken and for the body of
its rejections. -/
structure World where
  findAll : Model → Outcome JsVal
  findOne : Model → String → JsVal → Outcome (Option JsVal)
  create : Model → JsVal → Outcome JsVal
  update : Model → JsVal → JsVal → Outcome JsVal
  restore : Model → JsVal → Outcome Unit
  destroy : Model → JsVal → Bool → Outcome Unit
  compare : JsVal → JsVal → Outcome Bool
  hash : JsVal → JsVal → Outcome String
  sign : JsVal → JsVal → JsVal → Except JsVal String
  verify : String → TokenCheck
  guardBody : GuardFailure → JsVal
  JWT_SECRET : Option String
  JWT_DURING : Option String
  BCRYPT_SALT_ROUND : Option String

/-! ## Requests and responses -/

/-- HTTP methods. -/
inductive Method where
  | GET | HEAD | POST | PUT | PATCH | DELETE | OPTIONS
  deriving DecidableEq, Repr

/-- A request after body parsing: `path` holds the non-empty segments of the
URL path (segments are taken without percent-escapes, so that a segment is
also the decoded parameter a route captures), `authorization` the header of
that name, `user` the claims a guard attached. -/
structure Request where
  method : Method
  path : List String
  authorization : Option String
  body : JsVal
  user : JsVal := JsVal.undefined

/-- The response object: the status set so far and the trace of the
request. -/
structure Res where
  statusCode : Nat
  trace : List Effect

namespace Res

/-- A fresh response: Express starts every response with status 200. -/
def fresh : Res := ⟨200, []⟩

/-- Records a call made while handling the request. -/
def call (res : Res) (e : Effect) : Res := { res with trace := res.trace ++ [e] }

/-- Whether the trace already holds an answer. -/
def answered : List Effect → Bool
  | [] => false
  | Effect.send _ _ :: _ => true
  | Effect.swaggerUi :: _ => true
  | Effect.finalhandler :: _ => true
  | _ :: rest => answered rest

/-- The call `res.status(code)`. -/
def status (res : Res) (code : Nat) : Res := { res with statusCode := code }

/-- The calls `res.json(body)` and `res.send(body)`: the body leaves with the
status set so far, unless an answer already left. -/
def json (res : Res) (body : JsVal) : Res :=
  if answered res.trace then res.call (Effect.headersSent res.statusCode body)
  else res.call (Effect.send res.statusCode body)

/-- The call `res.end()`: the response leaves with the status set so far and
no body. -/
def finish (res : Res) : Res := res.json JsVal.undefined

end Res

/-- Body with the single field `message`. -/
def message (m : String) : JsVal := JsVal.obj [("message", JsVal.str m)]

/-- Body with the fields `message` and `error`. -/
def failure (m : String) (err : JsVal) : JsVal :=
  JsVal.obj [("message", JsVal.str m), ("error", err)]

/-! ## `routes/auth.js` -/

/-- Payload of the token: the four fields read from the account record. -/
def tokenPayload (user : JsVal) : JsVal :=
  JsVal.obj [("id", user.get "id"), ("nom", user.get "nom"),
    ("prenom", user.get "prenom"), ("email", user.get "email")]

/-- Handler of `router.post('/login')`. -/
def login (w : World) (req : Request) (res : Res) : Res :=
  let email := req.body.get "email"
  let password := req.body.get "password"
  if !email.truthy || !password.truthy then
    (res.status 400).json (message "Bad email or password")
  else
    let res := res.call (Effect.findOne Model.User "email" email)
    match w.findOne Model.User "email" email with
    | .reject err => (res.status 500).json (failure "Database Error" err)
    | .resolve none => (res.status 401).json (message "This account does not exists !")
    | .resolve (some user) =>
      let res := res.call (Effect.compare password (user.get "password"))
      match w.compare password (user.get "password") with
      | .reject err => (res.status 500).json (failure "Login process failed" err)
      | .resolve false => (res.status 401).json (message "Wrong password")
      | .resolve true =>
        let res := res.call
          (Effect.sign (tokenPayload user) (envVal w.JWT_SECRET) (envVal w.JWT_DURING))
        match w.sign (tokenPayload user) (envVal w.JWT_SECRET) (envVal w.JWT_DURING) with
        | .error err => (res.status 500).json (failure "Login process failed" err)
        | .ok token => res.json (JsVal.obj [("access_token", JsVal.str token)])

/-! ## `routes/users.js` and `routes/cocktails.js`

The two routers are written alike; the handlers they share are given once,
with the model as an argument. -/

/-- Word used for a record of the model in the messages. -/
def Model.word : Model → String
  | .User => "user"
  | .Cocktail => "cocktail"

/-- Capitalised word used in the success messages. -/
def Model.title : Model → String
  | .User => "User"
  | .Cocktail => "Cocktail"

/-- Handler of `router.get('')`: the list of records. -/
def list (m : Model) (w : World) (res : Res) : Res :=
  let res := res.call (Effect.findAll m)
  match w.findAll m with
  | .resolve records => res.json (JsVal.obj [("data", records)])
  | .reject err => (res.status 500).json (failure "Database Error" err)

/-- Handler of `router.get('/:id')`.  On an id that `parseInt` turns into a
falsy value the source calls `res.json(400).json(...)`: the first call sends
the number 400 as the body, with the status left untouched. -/
def getById (m : Model) (w : World) (id : String) (res : Res) : Res :=
  let recordId := parseInt id
  if !recordId.truthy then
    (res.json (JsVal.num 400)).json (message "Missing Parameter")
  else
    let res := res.call (Effect.findOne m "id" recordId)
    match w.findOne m "id" recordId with
    | .resolve none =>
      (res.status 404).json (message ("This " ++ m.word ++ " does not exist !"))
    | .resolve (some record) => res.json (JsVal.obj [("data", record)])
    | .reject err => (res.status 500).json (failure "Database Error" err)

/-- Handler of `router.put('')` of the users router. -/
def userCreate (w : World) (req : Request) (res : Res) : Res :=
  let nom := req.body.get "nom"
  let prenom := req.body.get "prenom"
  let pseudo := req.body.get "pseudo"
  let email := req.body.get "email"
  let password := req.body.get "password"
  if !nom.truthy || !prenom.truthy || !pseudo.truthy || !email.truthy || !password.truthy then
    (res.status 400).json (message "Missing Data")
  else
    let res := res.call (Effect.findOne Model.User "email" email)
    match w.findOne Model.User "email" email with
    | .reject err => (res.status 500).json (failure "Database Error" err)
    | .resolve (some _) =>
      (res.status 409).json (message ("The user " ++ nom.toStr ++ " already exists !"))
    | .resolve none =>
      let rounds := parseIntEnv w.BCRYPT_SALT_ROUND
      let res := res.call (Effect.hash password rounds)
      match w.hash password rounds with
      | .reject err => (res.status 500).json (failure "Hash Process Error" err)
      | .resolve hash =>
        let body := req.body.set "password" (JsVal.str hash)
        let res := res.call (Effect.create Model.User body)
        match w.create Model.User body with
        | .resolve user =>
          res.json (JsVal.obj [("message", JsVal.str "User Created"), ("data", user)])
        | .reject err => (res.status 500).json (failure "Database Error" err)

/-- Handler of `router.put('')` of the cocktails router. -/
def cocktailCreate (w : World) (req : Request) (res : Res) : Res :=
  let user_id := req.body.get "user_id"
  let nom := req.body.get "nom"
  let description := req.body.get "description"
  let recette := req.body.get "recette"
  if !user_id.truthy || !nom.truthy || !description.truthy || !recette.truthy then
    (res.status 400).json (message "Missing Data")
  else
    let res := res.call (Effect.findOne Model.Cocktail "nom" nom)
    match w.findOne Model.Cocktail "nom" nom with
    | .reject err => (res.status 500).json (failure "Database Error" err)
    | .resolve (some _) =>
      (res.status 409).json (message ("The cocktail " ++ nom.toStr ++ " already exists !"))
    | .resolve none =>
      let res := res.call (Effect.create Model.Cocktail req.body)
      match w.create Model.Cocktail req.body with
      | .resolve cocktail =>
        res.json (JsVal.obj [("message", JsVal.str "Cocktail Created"), ("data", cocktail)])
      | .reject err => (res.status 500).json (failure "Database Error" err)

/-- Handler of `router.patch('/:id')`. -/
def patch (m : Model) (w : World) (id : String) (req : Request) (res : Res) : Res :=
  let recordId := parseInt id
  if !recordId.truthy then
    (res.status 400).json (message "Missing parameter")
  else
    let res := res.call (Effect.findOne m "id" recordId)
    match w.findOne m "id" recordId with
    | .reject err => (res.status 500).json (failure "Database Error" err)
    | .resolve none =>
      (res.status 404).json (message ("This " ++ m.word ++ " does not exist !"))
    | .resolve (some _) =>
      let res := res.call (Effect.update m req.body recordId)
      match w.update m req.body recordId with
      | .resolve _ => res.json (message (m.title ++ " Updated"))
      | .reject err => (res.status 500).json (failure "Database Error" err)

/-- Handler of `router.post('/untrash/:id')`. -/
def untrash (m : Model) (w : World) (id : String) (res : Res) : Res :=
  let recordId := parseInt id
  if !recordId.truthy then
    (res.status 400).json (message "Missing parameter")
  else
    let res := res.call (Effect.restore m recordId)
    match w.restore m recordId with
    | .resolve _ => (res.status 204).json (JsVal.obj [])
    | .reject err => (res.status 500).json (failure "Database Error" err)

/-- Handler of `router.delete('/trash/:id')`. -/
def trash (m : Model) (w : World) (id : String) (res : Res) : Res :=
  let recordId := parseInt id
  if !recordId.truthy then
    (res.status 400).json (message "Missing parameter")
  else
    let res := res.call (Effect.destroy m recordId false)
    match w.destroy m recordId false with
    | .resolve _ => (res.status 204).json (JsVal.obj [])
    | .reject err => (res.status 500).json (failure "Database Error" err)

/-- Handler of `router.delete('/:id')`. -/
def hardDelete (m : Model) (w : World) (id : String) (res : Res) : Res :=
  let recordId := parseInt id
  if !recordId.truthy then
    (res.status 400).json (message "Missing parameter")
  else
    let res := res.call (Effect.destroy m recordId true)
    match w.destroy m recordId true with
    | .resolve _ => (res.status 204).json (JsVal.obj [])
    | .reject err => (res.status 500).json (failure "Database Error" err)

/-! ## The token guard -/

/-- Result of a middleware layer: it answered, or it passed the request on. -/
inductive Step where
  | done (res : Res) : Step
  | next (req : Request) (res : Res) : Step

/-- Modelled from the spec: `jsonwebtoken/check.js` is not among the sources.
The bearer token of an `Authorization: Bearer <token>` header; a missing
header or one of another shape yields none. -/
def extractBearer : Option String → Option String
  | none => none
  | some header =>
    let cs := header.toList
    if cs.take 7 = "Bearer ".toList ∧ cs.drop 7 ≠ [] then some (String.mk (cs.drop 7))
    else none

/-- Modelled from the spec: `jsonwebtoken/check.js` is not among the sources.
The guard extracts the bearer token and rejects with 401 when it is missing
or malformed; it verifies signature and expiry and rejects with 401 when
either fails; on success it attaches the decoded claims to the request and
passes control onward.  The body of a rejection is left to the world. -/
def checkTokenMiddleware (w : World) (req : Request) (res : Res) : Step :=
  let res := res.call Effect.guard
  match extractBearer req.authorization with
  | none => Step.done ((res.status 401).json (w.guardBody GuardFailure.noToken))
  | some token =>
    match w.verify token with
    | TokenCheck.valid claims => Step.next { req with user := claims } res
    | TokenCheck.invalidSignature =>
      Step.done ((res.status 401).json (w.guardBody GuardFailure.invalidSignature))
    | TokenCheck.expired =>
      Step.done ((res.status 401).json (w.guardBody GuardFailure.expired))

/-! ## Routing (`server.js` and the route tables of the routers) -/

/-- A segment of a route path: a literal, or the parameter `:id`. -/
inductive Seg where
  | lit (s : String) : Seg
  | param : Seg

/-- A route of a router: a method, a path, whether `checkTokenMiddleware`
is listed before the handler, and the handler. -/
structure Route where
  method : Method
  pattern : List Seg
  guarded : Bool
  handler : Handler

/-- Literal segments match without regard to case (Express's default). -/
def sameSegment (a b : String) : Bool :=
  a.toList.map Char.toLower == b.toList.map Char.toLower

/-- Matches a route path against the remaining segments of the request path;
the result lists the captured parameters. -/
def matchPattern : List Seg → List String → Option (List String)
  | [], [] => some []
  | Seg.lit s :: ps, x :: xs => if sameSegment s x then matchPattern ps xs else none
  | Seg.param :: ps, x :: xs => (matchPattern ps xs).map (fun captured => x :: captured)
  | _, _ => none

/-- A route registered for GET also serves HEAD. -/
def handlesMethod (route request : Method) : Bool :=
  request = route || (request = Method.HEAD && route = Method.GET)

/-- Runs a handler, recording that it was entered. -/
def Handler.run (h : Handler) (w : World) (req : Request) (id : String) (res : Res) : Res :=
  let res := res.call (Effect.handler h)
  match h with
  | .root => res.json (JsVal.str "I'm online. All is OK !")
  | .notImplemented => (res.status 501).json (JsVal.str "What the hell are you doing !?!")
  | .login => CocktailApi.login w req res
  | .userList => list Model.User w res
  | .userGet => getById Model.User w id res
  | .userCreate => CocktailApi.userCreate w req res
  | .userPatch => patch Model.User w id req res
  | .userUntrash => untrash Model.User w id res
  | .userTrash => trash Model.User w id res
  | .userDelete => hardDelete Model.User w id res
  | .cocktailList => list Model.Cocktail w res
  | .cocktailGet => getById Model.Cocktail w id res
  | .cocktailCreate => CocktailApi.cocktailCreate w req res
  | .cocktailPatch => patch Model.Cocktail w id req res
  | .cocktailUntrash => untrash Model.Cocktail w id res
  | .cocktailTrash => trash Model.Cocktail w id res
  | .cocktailDelete => hardDelete Model.Cocktail w id res

/-- Routes of `routes/users.js`, in the order of the file. -/
def userRoutes : List Route :=
  [ ⟨Method.GET, [], false, Handler.userList⟩,
    ⟨Method.GET, [Seg.param], false, Handler.userGet⟩,
    ⟨Method.PUT, [], false, Handler.userCreate⟩,
    ⟨Method.PATCH, [Seg.param], false, Handler.userPatch⟩,
    ⟨Method.POST, [Seg.lit "untrash", Seg.param], false, Handler.userUntrash⟩,
    ⟨Method.DELETE, [Seg.lit "trash", Seg.param], false, Handler.userTrash⟩,
    ⟨Method.DELETE, [Seg.param], false, Handler.userDelete⟩ ]

/-- Routes of `routes/cocktails.js`, in the order of the file. -/
def cocktailRoutes : List Route :=
  [ ⟨Method.GET, [], false, Handler.cocktailList⟩,
    ⟨Method.GET, [Seg.param], false, Handler.cocktailGet⟩,
    ⟨Method.PUT, [], true, Handler.cocktailCreate⟩,
    ⟨Method.PATCH, [Seg.param], true, Handler.cocktailPatch⟩,
    ⟨Method.POST, [Seg.lit "untrash", Seg.param], true, Handler.cocktailUntrash⟩,
    ⟨Method.DELETE, [Seg.lit "trash", Seg.param], true, Handler.cocktailTrash⟩,
    ⟨Method.DELETE, [Seg.param], true, Handler.cocktailDelete⟩ ]

/-- Routes of `routes/auth.js`. -/
def authRoutes : List Route :=
  [ ⟨Method.POST, [Seg.lit "login"], false, Handler.login⟩ ]

/-- Runs the first route that matches method and path; with no match the
request leaves the router. -/
def runRoutes (w : World) : List Route → List String → Request → Res → Step
  | [], _, req, res => Step.next req res
  | r :: rs, rest, req, res =>
    if handlesMethod r.method req.method then
      match matchPattern r.pattern rest with
      | some captured =>
        if r.guarded then
          match checkTokenMiddleware w req res with
          | Step.done res => Step.done res
          | Step.next req res => Step.done (r.handler.run w req (captured.headD "") res)
        else Step.done (r.handler.run w req (captured.headD "") res)
      | none => runRoutes w rs rest req res
    else runRoutes w rs rest req res

/-- A router: its time logger, then its routes. -/
def router (tag : String) (routes : List Route) (w : World) (rest : List String)
    (req : Request) (res : Res) : Step :=
  runRoutes w routes rest req (res.call (Effect.log tag))

/-- The layer `app.use(cors())`: a preflight request is answered at once
with status 204 and no body. -/
def corsLayer (_w : World) (req : Request) (res : Res) : Step :=
  if req.method = Method.OPTIONS then Step.done (res.status 204).finish
  else Step.next req res

/-- The layer `app.use('/api-docs', ...)`: the documentation takes every
request under its mount path and answers it itself (a page, a file, or a
redirection); its answer is recorded as one effect, without its status. -/
def apiDocsLayer (_w : World) (req : Request) (res : Res) : Step :=
  match req.path with
  | seg :: _ => if sameSegment "api-docs" seg then Step.done (res.call Effect.swaggerUi)
    else Step.next req res
  | [] => Step.next req res

/-- The layer `app.get('/', ...)`. -/
def rootLayer (w : World) (req : Request) (res : Res) : Step :=
  if handlesMethod Method.GET req.method ∧ req.path = [] then
    Step.done (Handler.root.run w req "" res)
  else Step.next req res

/-- The layer `app.use('/users', checkTokenMiddleware, user_router)`. -/
def usersLayer (w : World) (req : Request) (res : Res) : Step :=
  match req.path with
  | seg :: rest =>
    if sameSegment "users" seg then
      match checkTokenMiddleware w req res with
      | Step.done res => Step.done res
      | Step.next req res => router "User Time:" userRoutes w rest req res
    else Step.next req res
  | [] => Step.next req res

/-- The layer `app.use('/cocktails', cocktail_router)`. -/
def cocktailsLayer (w : World) (req : Request) (res : Res) : Step :=
  match req.path with
  | seg :: rest =>
    if sameSegment "cocktails" seg then router "Cocktail Time:" cocktailRoutes w rest req res
    else Step.next req res
  | [] => Step.next req res

/-- The layer `app.use('/auth', auth_router)`. -/
def authLayer (w : World) (req : Request) (res : Res) : Step :=
  match req.path with
  | seg :: rest =>
    if sameSegment "auth" seg then router "AUTH Time:" authRoutes w rest req res
    else Step.next req res
  | [] => Step.next req res

/-- The layer `app.get('*', ...)`: every path, GET (and HEAD) only. -/
def catchAllLayer (w : World) (req : Request) (res : Res) : Step :=
  if handlesMethod Method.GET req.method then
    Step.done (Handler.notImplemented.run w req "" res)
  else Step.next req res

/-- Runs the layers in order; a request that no layer answers reaches
Express's final handler. -/
def runLayers (w : World) : List (World → Request → Res → Step) → Request → Res → Res
  | [], _, res => res.call Effect.finalhandler
  | layer :: layers, req, res =>
    match layer w req res with
    | Step.done res => res
    | Step.next req res => runLayers w layers req res

/-- Layers of `server.js`, in the order they are registered (the body
parsers have already produced `req.body`). -/
def layers : List (World → Request → Res → Step) :=
  [corsLayer, apiDocsLayer, rootLayer, usersLayer, cocktailsLayer, authLayer, catchAllLayer]

/-- The application: the trace of a request. -/
def app (w : World) (req : Request) : List Effect :=
  (runLayers w layers req Res.fresh).trace

/-! ## Reading a trace -/

/-- Status of the answer the client receives: the first send of the trace;
the final handler answers 404, and an answer of the documentation has the
status the documentation gives it, which is not followed here. -/
def statusOf : List Effect → Option Nat
  | [] => none
  | Effect.send status _ :: _ => some status
  | Effect.swaggerUi :: _ => none
  | Effect.finalhandler :: _ => some 404
  | _ :: rest => statusOf rest

/-- Body of the answer the client receives from a handler or the guard. -/
def bodyOf : List Effect → Option JsVal
  | [] => none
  | Effect.send _ body :: _ => some body
  | Effect.swaggerUi :: _ => none
  | Effect.finalhandler :: _ => none
  | _ :: rest => bodyOf rest

/-- Whether an effect is a call of a store operation. -/
def Effect.isStoreOp : Effect → Bool
  | .findAll _ => true
  | .findOne _ _ _ => true
  | .create _ _ => true
  | .update _ _ _ => true
  | .restore _ _ => true
  | .destroy _ _ _ => true
  | _ => false

/-- Whether an effect is a password comparison. -/
def Effect.isCompare : Effect → Bool
  | .compare _ _ => true
  | _ => false

/-- Whether an effect is a token signature. -/
def Effect.isSign : Effect → Bool
  | .sign _ _ _ => true
  | _ => false

/-- Whether an effect is an entry of the guard or of a handler. -/
def Effect.isRouting : Effect → Bool
  | .guard => true
  | .handler _ => true
  | _ => false

/-- The guard and handler entries of a trace, in the order of the trace. -/
def routing (t : List Effect) : List Effect := t.filter Effect.isRouting

/-- The response a layer leaves behind. -/
def Step.res : Step → Res
  | .done r => r
  | .next _ r => r

/-- Handlers of the protected scope: every route of the users collection and
the cocktail mutations (create, update, soft-delete, restore, hard-delete). -/
def protectedHandlers : List Handler :=
  [Handler.userList, Handler.userGet, Handler.userCreate, Handler.userPatch,
   Handler.userUntrash, Handler.userTrash, Handler.userDelete,
   Handler.cocktailCreate, Handler.cocktailPatch, Handler.cocktailUntrash,
   Handler.cocktailTrash, Handler.cocktailDelete]

/-- Handlers outside the protected scope: the cocktail reads and the login. -/
def openHandlers : List Handler :=
  [Handler.cocktailList, Handler.cocktailGet, Handler.login]

/-- The cocktail mutations. -/
def guardedCocktailHandlers : List Handler :=
  [Handler.cocktailCreate, Handler.cocktailPatch, Handler.cocktailUntrash,
   Handler.cocktailTrash, Handler.cocktailDelete]

/-- Shapes of the guard and handler entries of a request. -/
def Shape (s : List Effect) : Prop :=
  s = [] ∨ s = [Effect.guard] ∨
  (∃ h, (h ∈ protectedHandlers ∨ h = Handler.notImplemented) ∧
    s = [Effect.guard, Effect.handler h]) ∨
  (∃ h, (h ∈ openHandlers ∨ h = Handler.root ∨ h = Handler.notImplemented) ∧
    s = [Effect.handler h])

/-- The header carrying the token of the sample world. -/
def goodHeader : Option String := some "Bearer header.payload.signature"

/-! ## A sample world

One account is stored; every operation of the store succeeds. -/

/-- The stored account. -/
def alice : JsVal :=
  JsVal.obj [("id", JsVal.num 1), ("nom", JsVal.str "Martin"), ("prenom", JsVal.str "Alice"),
    ("pseudo", JsVal.str "al"), ("email", JsVal.str "alice@example.com"),
    ("password", JsVal.str "$2b$10$stored")]

/-- A world with the single account `alice`, whose password is `secret`. -/
def sampleWorld : World where
  findAll := fun _ => Outcome.resolve (JsVal.arr [])
  findOne := fun m key val =>
    match m, key, val with
    | Model.User, "email", JsVal.str "alice@example.com" => Outcome.resolve (some alice)
    | Model.User, "id", JsVal.num 1 => Outcome.resolve (some alice)
    | _, _, _ => Outcome.resolve none
  create := fun _ values => Outcome.resolve values
  update := fun _ _ _ => Outcome.resolve (JsVal.arr [JsVal.num 1])
  restore := fun _ _ => Outcome.resolve ()
  destroy := fun _ _ _ => Outcome.resolve ()
  compare := fun data hash =>
    match data, hash with
    | JsVal.str "secret", JsVal.str "$2b$10$stored" => Outcome.resolve true
    | JsVal.str _, JsVal.str _ => Outcome.resolve false
    | _, _ => Outcome.reject (JsVal.str "data and hash must be strings")
  hash := fun data _ =>
    match data with
    | JsVal.str _ => Outcome.resolve "$2b$10$fresh"
    | _ => Outcome.reject (JsVal.str "data must be a string")
  sign := fun _ secret _ =>
    match secret with
    | JsVal.str _ => Except.ok "header.payload.signature"
    | _ => Except.error (JsVal.str "secretOrPrivateKey must have a value")
  verify := fun token =>
    if token = "header.payload.signature" then TokenCheck.valid (tokenPayload alice)
    else TokenCheck.invalidSignature
  guardBody := fun _ => message "Bad token"
  JWT_SECRET := some "server secret"
  JWT_DURING := some "1 hour"
  BCRYPT_SALT_ROUND := some "10"

/-- A request with the given method, path, authorization header and body. -/
def request (method : Method) (path : List String) (authorization : Option String)
    (body : JsVal) : Request :=
  { method := method, path := path, authorization := authorization, body := body }

/-- Credentials of an account that is not stored. -/
def strangerLogin : JsVal :=
  JsVal.obj [("email", JsVal.str "a@b.com"), ("password", JsVal.str "secret")]

/-- Credentials of `alice`. -/
def aliceLogin : JsVal :=
  JsVal.obj [("email", JsVal.str "alice@example.com"), ("password", JsVal.str "secret")]

/-- A complete body for the creation of a cocktail. -/
def newCocktail : JsVal :=
  JsVal.obj [("user_id", JsVal.num 1), ("nom", JsVal.str "Mojito"),
    ("description", JsVal.str "Rhum, menthe"), ("recette", JsVal.str "Piler, verser")]

/-- Decimal digits. -/
def isDecimalDigit (c : Char) : Bool := 48 ≤ c.toNat && c.toNat ≤ 57

/-- Whether a path segment begins with a decimal integer: after optional
white space and an optional sign, its first character is a decimal digit. -/
def leadingDecimal (s : String) : Bool :=
  match s.toList.dropWhile isStrWhiteSpace with
  | [] => false
  | c :: rest =>
    if c = '-' ∨ c = '+' then
      match rest with
      | [] => false
      | d :: _ => isDecimalDigit d
    else isDecimalDigit c

/-- Value of a list of decimal digits. -/
def decimalValue (cs : List Char) : Nat :=
  cs.foldl (fun acc c => acc * 10 + (c.toNat - 48)) 0

/-- A syntactically valid positive integer: only decimal digits, at least
one, with a value greater than zero. -/
def validPositiveInteger (s : String) : Bool :=
  !s.toList.isEmpty && s.toList.all isDecimalDigit && decide (0 < decimalValue s.toList)

/-- The id a store operation is queried with. -/
def Effect.queriedId : Effect → Option JsVal
  | .findOne _ _ val => some val
  | .update _ _ id => some id
  | .restore _ id => some id
  | .destroy _ id _ => some id
  | _ => none

/-- Traces of the five handlers that take an id, on the same segment. -/
def idHandlerTraces (m : Model) (w : World) (id : String) (req : Request) :
    List (List Effect) :=
  [(getById m w id Res.fresh).trace, (patch m w id req Res.fresh).trace,
   (untrash m w id Res.fresh).trace, (trash m w id Res.fresh).trace,
   (hardDelete m w id Res.fresh).trace]

/-- Fields a user creation requires. -/
def userRequired : List String := ["nom", "prenom", "pseudo", "email", "password"]

/-- Fields a cocktail creation requires. -/
def cocktailRequired : List String := ["user_id", "nom", "description", "recette"]

/-- A complete body for the creation of a user. -/
def newUser : JsVal :=
  JsVal.obj [("nom", JsVal.str "Durand"), ("prenom", JsVal.str "Bob"),
    ("pseudo", JsVal.str "bob"), ("email", JsVal.str "bob@example.com"),
    ("password", JsVal.str "hunter2")]

/-- Whether some route of the list serves the method on the remaining path. -/
def routeMatches (routes : List Route) (method : Method) (rest : List String) : Bool :=
  routes.any fun r => handlesMethod r.method method && (matchPattern r.pattern rest).isSome

/-- Whether the method and path of a request match a route the application
defines, the catch-all apart: the root, the documentation, or a route of one
of the three routers under its mount path. -/
def definedRoute (req : Request) : Bool :=
  match req.path with
  | [] => handlesMethod Method.GET req.method
  | seg :: rest =>
    sameSegment "api-docs" seg ||
    (sameSegment "users" seg && routeMatches userRoutes req.method rest) ||
    (sameSegment "cocktails" seg && routeMatches cocktailRoutes req.method rest) ||
    (sameSegment "auth" seg && routeMatches authRoutes req.method rest)

/-- Whether the guard lets the request through. -/
def guardPasses (w : World) (req : Request) : Bool :=
  match extractBearer req.authorization with
  | none => false
  | some token =>
    match w.verify token with
    | TokenCheck.valid _ => true
    | _ => false

/-- Whether the path is under the mount path of the users router. -/
def underUsers (req : Request) : Bool :=
  match req.path with
  | seg :: _ => sameSegment "users" seg
  | [] => false

/-- The fault with which the store rejects the operation an effect records,
if it does. -/
def World.fault (w : World) : Effect → Option JsVal
  | .findAll m =>
    match w.findAll m with
    | .reject e => some e
    | .resolve _ => none
  | .findOne m key val =>
    match w.findOne m key val with
    | .reject e => some e
    | .resolve _ => none
  | .create m values =>
    match w.create m values with
    | .reject e => some e
    | .resolve _ => none
  | .update m values id =>
    match w.update m values id with
    | .reject e => some e
    | .resolve _ => none
  | .restore m id =>
    match w.restore m id with
    | .reject e => some e
    | .resolve _ => none
  | .destroy m id force =>
    match w.destroy m id force with
    | .reject e => some e
    | .resolve _ => none
  | _ => none

/-- Every store operation of the trace that failed is answered with status
500 and a body that carries the fault under `Database Error`. -/
def StoreFaultAnswered (w : World) (t : List Effect) : Prop :=
  ∀ eff ∈ t, ∀ e, w.fault eff = some e →
    statusOf t = some 500 ∧ bodyOf t = some (failure "Database Error" e)

/-- The sample world with a store whose reads fail. -/
def brokenWorld : World :=
  { sampleWorld with
    findAll := fun _ => Outcome.reject (JsVal.str "ECONNREFUSED")
    findOne := fun _ _ _ => Outcome.reject (JsVal.str "ECONNREFUSED") }

/-- The sample world without a signing secret. -/
def misconfiguredWorld : World :=
  { sampleWorld with JWT_SECRET := none }

/-- Number of answers that left through `res.json`. -/
def sends : List Effect → Nat
  | [] => 0
  | Effect.send _ _ :: rest => sends rest + 1
  | _ :: rest => sends rest

/-- Number of sends attempted on an already sent response. -/
def resends : List Effect → Nat
  | [] => 0
  | Effect.headersSent _ _ :: rest => resends rest + 1
  | _ :: rest => resends rest

/-- Exactly one answer left and no send was attempted after it. -/
def answersOnce (t : List Effect) : Bool := sends t == 1 && resends t == 0

/-- Whether an effect is a password hash. -/
def Effect.isHash : Effect → Bool
  | .hash _ _ => true
  | _ => false

/-- A patch body that changes the password. -/
def passwordChange : JsVal :=
  JsVal.obj [("password", JsVal.str "new plaintext")]

/-- A complete body for the creation of a user, whose password is a number. -/
def numericPasswordUser : JsVal :=
  JsVal.obj [("nom", JsVal.str "Durand"), ("prenom", JsVal.str "Bob"),
    ("pseudo", JsVal.str "bob"), ("email", JsVal.str "bob@example.com"),
    ("password", JsVal.num 12345)]

/-- The sample world with twelve rounds configured for the hash. -/
def roundsWorld : World :=
  { sampleWorld with BCRYPT_SALT_ROUND := some "12" }

/-- A record whose id is `2^53`. -/
def limitRecord : JsVal :=
  JsVal.obj [("id", JsVal.num 9007199254740992), ("nom", JsVal.str "Limit")]

/-- The sample world with one more record in each table, of id `2^53`. -/
def limitWorld : World :=
  { sampleWorld with
    findOne := fun m key val =>
      match key, val with
      | "id", JsVal.num 9007199254740992 => Outcome.resolve (some limitRecord)
      | _, _ => sampleWorld.findOne m key val }

/-! ## Theorems -/

/-- C1, as stated, fails: in a world with no signing secret the account of
`alice` is found and the comparison of her password yields true, yet the
answer is 500, not 200. -/
theorem login_matched_not_200 :
    misconfiguredWorld.findOne Model.User "email" (aliceLogin.get "email")
      = Outcome.resolve (some alice) ∧
    misconfiguredWorld.compare (aliceLogin.get "password") (alice.get "password")
      = Outcome.resolve true ∧
    statusOf (login misconfiguredWorld (request Method.POST ["auth", "login"] none aliceLogin)
        Res.fresh).trace = some 500 ∧
    statusOf (login misconfiguredWorld (request Method.POST ["auth", "login"] none aliceLogin)
        Res.fresh).trace ≠ some 200 := by
  refine ⟨rfl, rfl, rfl, ?_⟩
  rw [show statusOf (login misconfiguredWorld
    (request Method.POST ["auth", "login"] none aliceLogin) Res.fresh).trace = some 500 from rfl]
  decide

/-- C1, amended: decision table of the login handler, in every world.  A
missing or empty (falsy) email or password gives 400 and no store call;
otherwise an unknown email gives 401 with the message
`This account does not exists !`, with no comparison and no signature; a known
account whose comparison yields false gives 401 `Wrong password`; the answer
is 200 with an `access_token` exactly when the account is found, the
comparison yields true and the signature of the token succeeds; and a
signature that fails is answered with 500 `Login process failed` and the
error. -/
theorem login_decision_table (w : World) (req : Request) :
    ((req.body.get "email").truthy = false ∨ (req.body.get "password").truthy = false →
      statusOf (login w req Res.fresh).trace = some 400 ∧
      ∀ e ∈ (login w req Res.fresh).trace, e.isStoreOp = false) ∧
    ((req.body.get "email").truthy = true → (req.body.get "password").truthy = true →
      w.findOne Model.User "email" (req.body.get "email") = Outcome.resolve none →
      statusOf (login w req Res.fresh).trace = some 401 ∧
      bodyOf (login w req Res.fresh).trace = some (message "This account does not exists !") ∧
      ∀ e ∈ (login w req Res.fresh).trace, e.isCompare = false ∧ e.isSign = false) ∧
    (∀ user, (req.body.get "email").truthy = true → (req.body.get "password").truthy = true →
      w.findOne Model.User "email" (req.body.get "email") = Outcome.resolve (some user) →
      w.compare (req.body.get "password") (user.get "password") = Outcome.resolve false →
      statusOf (login w req Res.fresh).trace = some 401 ∧
      bodyOf (login w req Res.fresh).trace = some (message "Wrong password")) ∧
    ((∃ token, statusOf (login w req Res.fresh).trace = some 200 ∧
        bodyOf (login w req Res.fresh).trace
          = some (JsVal.obj [("access_token", JsVal.str token)])) ↔
      (req.body.get "email").truthy = true ∧ (req.body.get "password").truthy = true ∧
      ∃ user, w.findOne Model.User "email" (req.body.get "email") = Outcome.resolve (some user) ∧
        w.compare (req.body.get "password") (user.get "password") = Outcome.resolve true ∧
        ∃ payload secret lifetime token,
          Effect.sign payload secret lifetime ∈ (login w req Res.fresh).trace ∧
          w.sign payload secret lifetime = Except.ok token) ∧
    (statusOf (login w req Res.fresh).trace = some 200 ↔
      (req.body.get "email").truthy = true ∧ (req.body.get "password").truthy = true ∧
      ∃ user, w.findOne Model.User "email" (req.body.get "email") = Outcome.resolve (some user) ∧
        w.compare (req.body.get "password") (user.get "password") = Outcome.resolve true ∧
        ∃ payload secret lifetime token,
          Effect.sign payload secret lifetime ∈ (login w req Res.fresh).trace ∧
          w.sign payload secret lifetime = Except.ok token) ∧
    (∀ payload secret lifetime err,
      Effect.sign payload secret lifetime ∈ (login w req Res.fresh).trace →
      w.sign payload secret lifetime = Except.error err →
      statusOf (login w req Res.fresh).trace = some 500 ∧
      bodyOf (login w req Res.fresh).trace
        = some (JsVal.obj [("message", JsVal.str "Login process failed"), ("error", err)])) := by
  refine ⟨?_, ?_, ?_, ?_, ?_, ?_⟩
  · intro h
    have : (!(req.body.get "email").truthy || !(req.body.get "password").truthy) = true := by
      rcases h with h | h <;> simp [h]
    simp [login, this, Res.json, Res.call, Res.status, Res.fresh, Res.answered, statusOf,
      Effect.isStoreOp]
  · intro h1 h2 h3
    simp [login, h1, h2, h3, Res.json, Res.call, Res.status, Res.fresh, Res.answered, statusOf,
      bodyOf, Effect.isCompare, Effect.isSign]
  · intro user h1 h2 h3 h4
    simp [login, h1, h2, h3, h4, Res.json, Res.call, Res.status, Res.fresh, Res.answered,
      statusOf, bodyOf]
  all_goals
    cases h1 : (req.body.get "email").truthy <;> cases h2 : (req.body.get "password").truthy <;>
      try (simp [login, h1, h2, Res.json, Res.call, Res.status, Res.fresh, Res.answered,
        statusOf, bodyOf]; done)
    cases h3 : w.findOne Model.User "email" (req.body.get "email") with
    | reject err =>
      simp [login, h1, h2, h3, Res.json, Res.call, Res.status, Res.fresh, Res.answered,
        statusOf, bodyOf]
    | resolve found =>
      cases found with
      | none =>
        simp [login, h1, h2, h3, Res.json, Res.call, Res.status, Res.fresh, Res.answered,
          statusOf, bodyOf]
      | some user =>
        cases h4 : w.compare (req.body.get "password") (user.get "password") with
        | reject err =>
          simp [login, h1, h2, h3, h4, Res.json, Res.call, Res.status, Res.fresh,
            Res.answered, statusOf, bodyOf]
        | resolve test =>
          cases test
          · simp [login, h1, h2, h3, h4, Res.json, Res.call, Res.status, Res.fresh,
              Res.answered, statusOf, bodyOf]
          · cases h5 : w.sign (tokenPayload user) (envVal w.JWT_SECRET)
                (envVal w.JWT_DURING) <;>
              simp [login, h1, h2, h3, h4, h5, failure, Res.json, Res.call, Res.status,
                Res.fresh, Res.answered, statusOf, bodyOf] <;>
              first
                | exact ⟨_, _, _, ⟨rfl, rfl, rfl⟩, _, h5⟩
                | (intros; subst_vars; simp_all)

/-- C2: a login answered with 200 signed its token with the value of
`JWT_SECRET` as the secret and the value of `JWT_DURING` as the lifetime
(`undefined` for a variable that is not set), over the four claims `id`,
`nom`, `prenom`, `email` read from the record the lookup found, and no other
key is in the claims. -/
theorem login_token_claims (w : World) (req : Request)
    (h : statusOf (login w req Res.fresh).trace = some 200) :
    ∃ user token secret lifetime,
      w.findOne Model.User "email" (req.body.get "email") = Outcome.resolve (some user) ∧
      (∀ v, w.JWT_SECRET = some v → secret = JsVal.str v) ∧
      (w.JWT_SECRET = none → secret = JsVal.undefined) ∧
      (∀ v, w.JWT_DURING = some v → lifetime = JsVal.str v) ∧
      (w.JWT_DURING = none → lifetime = JsVal.undefined) ∧
      w.sign (JsVal.obj [("id", user.get "id"), ("nom", user.get "nom"),
          ("prenom", user.get "prenom"), ("email", user.get "email")])
        secret lifetime = Except.ok token ∧
      (login w req Res.fresh).trace =
        [Effect.findOne Model.User "email" (req.body.get "email"),
         Effect.compare (req.body.get "password") (user.get "password"),
         Effect.sign (JsVal.obj [("id", user.get "id"), ("nom", user.get "nom"),
            ("prenom", user.get "prenom"), ("email", user.get "email")])
          secret lifetime,
         Effect.send 200 (JsVal.obj [("access_token", JsVal.str token)])] ∧
      ∀ k, k ∉ ["id", "nom", "prenom", "email"] →
        (JsVal.obj [("id", user.get "id"), ("nom", user.get "nom"),
          ("prenom", user.get "prenom"), ("email", user.get "email")]).get k = JsVal.undefined := by
  revert h
  cases h1 : (req.body.get "email").truthy <;> cases h2 : (req.body.get "password").truthy <;>
    try (simp [login, h1, h2, Res.json, Res.call, Res.status, Res.fresh, Res.answered,
      statusOf]; done)
  cases h3 : w.findOne Model.User "email" (req.body.get "email") with
  | reject err =>
    simp [login, h1, h2, h3, Res.json, Res.call, Res.status, Res.fresh, Res.answered, statusOf]
  | resolve found =>
    cases found with
    | none =>
      simp [login, h1, h2, h3, Res.json, Res.call, Res.status, Res.fresh, Res.answered,
        statusOf]
    | some user =>
      cases h4 : w.compare (req.body.get "password") (user.get "password") with
      | reject err =>
        simp [login, h1, h2, h3, h4, Res.json, Res.call, Res.status, Res.fresh,
          Res.answered, statusOf]
      | resolve test =>
        cases test
        · simp [login, h1, h2, h3, h4, Res.json, Res.call, Res.status, Res.fresh,
            Res.answered, statusOf]
        · cases h5 : w.sign (tokenPayload user) (envVal w.JWT_SECRET) (envVal w.JWT_DURING) with
          | error err =>
            simp [login, h1, h2, h3, h4, h5, Res.json, Res.call, Res.status, Res.fresh,
              Res.answered, statusOf]
          | ok token =>
            intro _
            refine ⟨user, token, envVal w.JWT_SECRET, envVal w.JWT_DURING, rfl, ?_, ?_, ?_, ?_,
              h5, ?_, ?_⟩
            · intro v hv; rw [hv]; rfl
            · intro hv; rw [hv]; rfl
            · intro v hv; rw [hv]; rfl
            · intro hv; rw [hv]; rfl
            · have h5' := h5
              simp only [tokenPayload] at h5'
              simp [login, h1, h2, h3, h4, h5', Res.json, Res.call, Res.status, Res.fresh,
                Res.answered, tokenPayload]
            · intro k hk
              simp at hk
              simp [JsVal.get, JsVal.lookup, Ne.symm hk.1, Ne.symm hk.2.1, Ne.symm hk.2.2.1,
                Ne.symm hk.2.2.2]

/-- Witness of C1, amended: the scenario of an unknown account, and a
successful login. -/
theorem login_decision_table_witness :
    (statusOf (login sampleWorld (request Method.POST ["auth", "login"] none strangerLogin)
        Res.fresh).trace = some 401 ∧
      bodyOf (login sampleWorld (request Method.POST ["auth", "login"] none strangerLogin)
        Res.fresh).trace = some (message "This account does not exists !")) ∧
    statusOf (login sampleWorld (request Method.POST ["auth", "login"] none aliceLogin)
        Res.fresh).trace = some 200 :=
  ⟨⟨((login_decision_table sampleWorld
        (request Method.POST ["auth", "login"] none strangerLogin)).2.1 rfl rfl rfl).1,
      ((login_decision_table sampleWorld
        (request Method.POST ["auth", "login"] none strangerLogin)).2.1 rfl rfl rfl).2.1⟩,
    (login_decision_table sampleWorld
      (request Method.POST ["auth", "login"] none aliceLogin)).2.2.2.2.1.mpr
      ⟨rfl, rfl, alice, rfl, rfl, tokenPayload alice, JsVal.str "server secret",
        JsVal.str "1 hour", "header.payload.signature",
        by
          rw [show (login sampleWorld (request Method.POST ["auth", "login"] none aliceLogin)
              Res.fresh).trace
            = [Effect.findOne Model.User "email" (JsVal.str "alice@example.com"),
               Effect.compare (JsVal.str "secret") (JsVal.str "$2b$10$stored"),
               Effect.sign (tokenPayload alice) (JsVal.str "server secret")
                (JsVal.str "1 hour"),
               Effect.send 200
                (JsVal.obj [("access_token", JsVal.str "header.payload.signature")])]
            from rfl]
          simp,
        rfl⟩⟩

/-- Witness of C2: the login of `alice` signs her four claims with the secret
`server secret` and the lifetime `1 hour` of the sample world. -/
theorem login_token_claims_witness :
    (login sampleWorld (request Method.POST ["auth", "login"] none aliceLogin) Res.fresh).trace
      = [Effect.findOne Model.User "email" (JsVal.str "alice@example.com"),
         Effect.compare (JsVal.str "secret") (JsVal.str "$2b$10$stored"),
         Effect.sign
          (JsVal.obj [("id", JsVal.num 1), ("nom", JsVal.str "Martin"),
            ("prenom", JsVal.str "Alice"), ("email", JsVal.str "alice@example.com")])
          (JsVal.str "server secret") (JsVal.str "1 hour"),
         Effect.send 200 (JsVal.obj [("access_token", JsVal.str "header.payload.signature")])] :=
  match login_token_claims sampleWorld
    (request Method.POST ["auth", "login"] none aliceLogin) rfl with
  | ⟨user, token, secret, lifetime, hfind, hsecret, _, hlifetime, _, hsign, htrace, _⟩ => by
    have huser : user = alice := by
      have h : Outcome.resolve (some alice) = Outcome.resolve (some user) := hfind
      cases h
      rfl
    subst huser
    have hs : secret = JsVal.str "server secret" := hsecret "server secret" rfl
    have hl : lifetime = JsVal.str "1 hour" := hlifetime "1 hour" rfl
    subst hs hl
    have htoken : token = "header.payload.signature" := by
      have h : (Except.ok "header.payload.signature" : Except JsVal String) = Except.ok token :=
        hsign
      cases h
      rfl
    subst htoken
    exact htrace

/-! ### The guard and handler entries of a trace -/

theorem routing_call (res : Res) (e : Effect) (h : e.isRouting = false) :
    routing (res.call e).trace = routing res.trace := by
  simp [routing, Res.call, List.filter_append, h]

theorem routing_status (res : Res) (n : Nat) :
    routing (res.status n).trace = routing res.trace := rfl

theorem routing_json (res : Res) (body : JsVal) :
    routing (res.json body).trace = routing res.trace := by
  unfold Res.json
  split <;> simp [routing_call, Effect.isRouting]

theorem routing_login (w : World) (req : Request) (res : Res) :
    routing (login w req res).trace = routing res.trace := by
  unfold login
  simp only []
  repeat' split
  all_goals simp [routing_json, routing_status, routing_call, Effect.isRouting]

theorem routing_list (m : Model) (w : World) (res : Res) :
    routing (list m w res).trace = routing res.trace := by
  unfold list
  simp only []
  repeat' split
  all_goals simp [routing_json, routing_status, routing_call, Effect.isRouting]

theorem routing_getById (m : Model) (w : World) (id : String) (res : Res) :
    routing (getById m w id res).trace = routing res.trace := by
  unfold getById
  simp only []
  repeat' split
  all_goals simp [routing_json, routing_status, routing_call, Effect.isRouting]

theorem routing_userCreate (w : World) (req : Request) (res : Res) :
    routing (userCreate w req res).trace = routing res.trace := by
  unfold userCreate
  simp only []
  repeat' split
  all_goals simp [routing_json, routing_status, routing_call, Effect.isRouting]

theorem routing_cocktailCreate (w : World) (req : Request) (res : Res) :
    routing (cocktailCreate w req res).trace = routing res.trace := by
  unfold cocktailCreate
  simp only []
  repeat' split
  all_goals simp [routing_json, routing_status, routing_call, Effect.isRouting]

theorem routing_patch (m : Model) (w : World) (id : String) (req : Request) (res : Res) :
    routing (patch m w id req res).trace = routing res.trace := by
  unfold patch
  simp only []
  repeat' split
  all_goals simp [routing_json, routing_status, routing_call, Effect.isRouting]

theorem routing_untrash (m : Model) (w : World) (id : String) (res : Res) :
    routing (untrash m w id res).trace = routing res.trace := by
  unfold untrash
  simp only []
  repeat' split
  all_goals simp [routing_json, routing_status, routing_call, Effect.isRouting]

theorem routing_trash (m : Model) (w : World) (id : String) (res : Res) :
    routing (trash m w id res).trace = routing res.trace := by
  unfold trash
  simp only []
  repeat' split
  all_goals simp [routing_json, routing_status, routing_call, Effect.isRouting]

theorem routing_hardDelete (m : Model) (w : World) (id : String) (res : Res) :
    routing (hardDelete m w id res).trace = routing res.trace := by
  unfold hardDelete
  simp only []
  repeat' split
  all_goals simp [routing_json, routing_status, routing_call, Effect.isRouting]

theorem routing_run (h : Handler) (w : World) (req : Request) (id : String) (res : Res) :
    routing (h.run w req id res).trace = routing res.trace ++ [Effect.handler h] := by
  have hc : routing (res.call (Effect.handler h)).trace
      = routing res.trace ++ [Effect.handler h] := by
    simp [routing, Res.call, List.filter_append, Effect.isRouting]
  cases h <;>
    simp [Handler.run, routing_json, routing_status, routing_login, routing_list,
      routing_getById, routing_userCreate, routing_cocktailCreate, routing_patch,
      routing_untrash, routing_trash, routing_hardDelete, hc]

theorem routing_guard (w : World) (req : Request) (res : Res) :
    routing (checkTokenMiddleware w req res).res.trace = routing res.trace ++ [Effect.guard] := by
  have hc : routing (res.call Effect.guard).trace = routing res.trace ++ [Effect.guard] := by
    simp [routing, Res.call, List.filter_append, Effect.isRouting]
  unfold checkTokenMiddleware
  simp only []
  repeat' split
  all_goals simp [Step.res, routing_json, routing_status, hc]

theorem routing_runRoutes (w : World) (routes : List Route) (rest : List String)
    (req : Request) (res : Res) :
    runRoutes w routes rest req res = Step.next req res ∨
    ∃ r, runRoutes w routes rest req res = Step.done r ∧
      ∃ route ∈ routes,
        (route.guarded = false ∧
          routing r.trace = routing res.trace ++ [Effect.handler route.handler]) ∨
        (route.guarded = true ∧
          (routing r.trace = routing res.trace ++ [Effect.guard] ∨
           routing r.trace = routing res.trace ++ [Effect.guard, Effect.handler route.handler])) := by
  induction routes with
  | nil => left; rfl
  | cons route routes ih =>
    unfold runRoutes
    split
    · split
      · rename_i captured _
        right
        cases hg : route.guarded
        · simp only [hg, Bool.false_eq_true, if_false]
          refine ⟨_, rfl, route, by simp, Or.inl ⟨hg, ?_⟩⟩
          simp [routing_run]
        · have hguard := routing_guard w req res
          simp only [hg, if_true]
          cases hstep : checkTokenMiddleware w req res with
          | done r =>
            rw [hstep] at hguard
            exact ⟨r, rfl, route, by simp, Or.inr ⟨hg, Or.inl hguard⟩⟩
          | next req' r =>
            rw [hstep] at hguard
            refine ⟨_, rfl, route, by simp, Or.inr ⟨hg, Or.inr ?_⟩⟩
            simp only [Step.res] at hguard
            simp [routing_run, hguard]
      · rcases ih with ih | ⟨r, h1, route', hmem, h2⟩
        · left; exact ih
        · right; exact ⟨r, h1, route', List.mem_cons_of_mem _ hmem, h2⟩
    · rcases ih with ih | ⟨r, h1, route', hmem, h2⟩
      · left; exact ih
      · right; exact ⟨r, h1, route', List.mem_cons_of_mem _ hmem, h2⟩

theorem sameSegment_excl (a b seg : String) (hab : sameSegment a b = false)
    (ha : sameSegment a seg = true) : sameSegment b seg = false := by
  simp only [sameSegment, beq_iff_eq, beq_eq_false_iff_ne, ne_eq] at *
  intro hb
  exact hab (ha.trans hb.symm)

theorem routing_catchAll (w : World) (req : Request) (res : Res) :
    routing (runLayers w [catchAllLayer] req res).trace = routing res.trace ∨
    routing (runLayers w [catchAllLayer] req res).trace
      = routing res.trace ++ [Effect.handler Handler.notImplemented] := by
  simp only [runLayers, catchAllLayer]
  split
  · right
    rename_i h
    split at h
    · cases h; exact routing_run _ _ _ _ _
    · cases h
  · left
    rename_i h
    split at h
    · cases h
    · cases h
      simp [routing_call, Effect.isRouting]

theorem routing_authTail (w : World) (req : Request) (res : Res) :
    routing (runLayers w [authLayer, catchAllLayer] req res).trace = routing res.trace ∨
    routing (runLayers w [authLayer, catchAllLayer] req res).trace
      = routing res.trace ++ [Effect.handler Handler.notImplemented] ∨
    routing (runLayers w [authLayer, catchAllLayer] req res).trace
      = routing res.trace ++ [Effect.handler Handler.login] := by
  have hlog : routing (res.call (Effect.log "AUTH Time:")).trace = routing res.trace :=
    routing_call _ _ rfl
  have htail := routing_catchAll w req
  rw [runLayers]
  split
  · rename_i r h
    right; right
    unfold authLayer at h
    split at h
    · split at h
      · rcases routing_runRoutes w authRoutes _ req (res.call (Effect.log "AUTH Time:")) with
          hn | ⟨r', hd, route, hmem, hshape⟩
        · simp only [router] at h; rw [hn] at h; cases h
        · simp only [router] at h; rw [hd] at h; cases h
          simp only [authRoutes, List.mem_singleton] at hmem
          subst hmem
          simpa [hlog] using hshape
      · cases h
    · cases h
  · rename_i req' r h
    unfold authLayer at h
    split at h
    · split at h
      · rcases routing_runRoutes w authRoutes _ req (res.call (Effect.log "AUTH Time:")) with
          hn | ⟨r', hd, _⟩
        · simp only [router] at h; rw [hn] at h; cases h
          rcases htail (res.call (Effect.log "AUTH Time:")) with h1 | h1
          · left; rw [h1, hlog]
          · right; left; rw [h1, hlog]
        · simp only [router] at h; rw [hd] at h; cases h
      · cases h
        rcases htail res with h1 | h1
        · left; exact h1
        · right; left; exact h1
    · cases h
      rcases htail res with h1 | h1
      · left; exact h1
      · right; left; exact h1

theorem routing_cocktailTail (w : World) (req : Request) (res : Res) :
    ∃ s, routing (runLayers w [cocktailsLayer, authLayer, catchAllLayer] req res).trace
        = routing res.trace ++ s ∧
      (s = [] ∨ s = [Effect.guard] ∨
        (∃ h, h ∈ guardedCocktailHandlers ∧ s = [Effect.guard, Effect.handler h]) ∨
        (∃ h, (h ∈ openHandlers ∨ h = Handler.notImplemented) ∧ s = [Effect.handler h])) := by
  have hlog : routing (res.call (Effect.log "Cocktail Time:")).trace = routing res.trace :=
    routing_call _ _ rfl
  have htail : ∀ res' : Res, routing res'.trace = routing res.trace →
      ∃ s, routing (runLayers w [authLayer, catchAllLayer] req res').trace
          = routing res.trace ++ s ∧
        (s = [] ∨ s = [Effect.guard] ∨
          (∃ h, h ∈ guardedCocktailHandlers ∧ s = [Effect.guard, Effect.handler h]) ∨
          (∃ h, (h ∈ openHandlers ∨ h = Handler.notImplemented) ∧ s = [Effect.handler h])) := by
    intro res' hres
    rcases routing_authTail w req res' with h1 | h1 | h1
    · exact ⟨[], by rw [h1, hres]; simp, Or.inl rfl⟩
    · exact ⟨_, by rw [h1, hres], Or.inr (Or.inr (Or.inr ⟨_, Or.inr rfl, rfl⟩))⟩
    · exact ⟨_, by rw [h1, hres], Or.inr (Or.inr (Or.inr ⟨_, Or.inl (by simp [openHandlers]), rfl⟩))⟩
  rw [runLayers]
  split
  · rename_i r h
    unfold cocktailsLayer at h
    split at h
    · split at h
      · rcases routing_runRoutes w cocktailRoutes _ req
            (res.call (Effect.log "Cocktail Time:")) with hn | ⟨r', hd, route, hmem, hshape⟩
        · simp only [router] at h; rw [hn] at h; cases h
        · simp only [router] at h; rw [hd] at h; cases h
          rw [hlog] at hshape
          simp only [cocktailRoutes, List.mem_cons, List.mem_singleton, List.not_mem_nil,
            or_false] at hmem
          rcases hmem with rfl | rfl | rfl | rfl | rfl | rfl | rfl <;>
            simp only [Bool.true_eq_false, Bool.false_eq_true, false_and, true_and, or_false,
              false_or] at hshape
          · exact ⟨_, hshape, Or.inr (Or.inr (Or.inr ⟨_, Or.inl (by simp [openHandlers]), rfl⟩))⟩
          · exact ⟨_, hshape, Or.inr (Or.inr (Or.inr ⟨_, Or.inl (by simp [openHandlers]), rfl⟩))⟩
          all_goals
            rcases hshape with hshape | hshape
            · exact ⟨_, hshape, Or.inr (Or.inl rfl)⟩
            · exact ⟨_, hshape, Or.inr (Or.inr (Or.inl ⟨_, by simp [guardedCocktailHandlers], rfl⟩))⟩
      · cases h
    · cases h
  · rename_i req' r h
    unfold cocktailsLayer at h
    split at h
    · split at h
      · rcases routing_runRoutes w cocktailRoutes _ req
            (res.call (Effect.log "Cocktail Time:")) with hn | ⟨r', hd, _⟩
        · simp only [router] at h; rw [hn] at h; cases h
          exact htail _ hlog
        · simp only [router] at h; rw [hd] at h; cases h
      · cases h; exact htail _ rfl
    · cases h; exact htail _ rfl

theorem guard_next (w : World) (req req' : Request) (res r : Res)
    (h : checkTokenMiddleware w req res = Step.next req' r) :
    req'.method = req.method ∧ req'.path = req.path ∧ req'.body = req.body ∧
      req'.authorization = req.authorization ∧ r = res.call Effect.guard := by
  unfold checkTokenMiddleware at h
  simp only [] at h
  split at h
  · cases h
  · split at h
    · cases h; exact ⟨rfl, rfl, rfl, rfl, rfl⟩
    · cases h
    · cases h

theorem runLayers_skip (w : World) (req : Request) (res : Res) (seg : String)
    (rest : List String) (hpath : req.path = seg :: rest)
    (hseg : sameSegment "users" seg = true) :
    runLayers w [cocktailsLayer, authLayer, catchAllLayer] req res
      = runLayers w [catchAllLayer] req res := by
  have h1 : sameSegment "cocktails" seg = false := sameSegment_excl _ _ _ (by decide) hseg
  have h2 : sameSegment "auth" seg = false := sameSegment_excl _ _ _ (by decide) hseg
  rw [runLayers]
  simp only [cocktailsLayer, hpath, h1, Bool.false_eq_true, if_false]
  rw [runLayers]
  simp only [authLayer, hpath, h2, Bool.false_eq_true, if_false]

theorem routing_usersTail (w : World) (req : Request) (res : Res) :
    ∃ s, routing (runLayers w [usersLayer, cocktailsLayer, authLayer, catchAllLayer]
        req res).trace = routing res.trace ++ s ∧
      (s = [] ∨ s = [Effect.guard] ∨
        (∃ h, (h ∈ protectedHandlers ∨ h = Handler.notImplemented) ∧
          s = [Effect.guard, Effect.handler h]) ∨
        (∃ h, (h ∈ openHandlers ∨ h = Handler.notImplemented) ∧ s = [Effect.handler h])) := by
  have hopen : ∀ req' : Request, ∃ s,
      routing (runLayers w [cocktailsLayer, authLayer, catchAllLayer] req' res).trace
        = routing res.trace ++ s ∧
      (s = [] ∨ s = [Effect.guard] ∨
        (∃ h, (h ∈ protectedHandlers ∨ h = Handler.notImplemented) ∧
          s = [Effect.guard, Effect.handler h]) ∨
        (∃ h, (h ∈ openHandlers ∨ h = Handler.notImplemented) ∧ s = [Effect.handler h])) := by
    intro req'
    obtain ⟨s, hs, hshape⟩ := routing_cocktailTail w req' res
    refine ⟨s, hs, ?_⟩
    rcases hshape with h | h | ⟨h, hmem, hs'⟩ | h
    · exact Or.inl h
    · exact Or.inr (Or.inl h)
    · refine Or.inr (Or.inr (Or.inl ⟨h, Or.inl ?_, hs'⟩))
      simp only [guardedCocktailHandlers, List.mem_cons, List.mem_singleton,
        List.not_mem_nil, or_false] at hmem
      rcases hmem with rfl | rfl | rfl | rfl | rfl <;> simp [protectedHandlers]
    · exact Or.inr (Or.inr (Or.inr h))
  rw [runLayers]
  cases hpath : req.path with
  | nil =>
    simp only [usersLayer, hpath]
    exact hopen req
  | cons seg rest =>
    cases hseg : sameSegment "users" seg with
    | false =>
      simp only [usersLayer, hpath, hseg, Bool.false_eq_true, if_false]
      exact hopen req
    | true =>
      simp only [usersLayer, hpath, hseg, if_true]
      have hguard := routing_guard w req res
      cases hstep : checkTokenMiddleware w req res with
      | done r =>
        rw [hstep] at hguard
        exact ⟨_, hguard, Or.inr (Or.inl rfl)⟩
      | next req' r =>
        rw [hstep] at hguard
        simp only [Step.res] at hguard
        obtain ⟨_, hpath', _, _, _⟩ := guard_next w req req' res r hstep
        have hlog : routing (r.call (Effect.log "User Time:")).trace
            = routing res.trace ++ [Effect.guard] := by
          rw [routing_call r (Effect.log "User Time:") rfl, hguard]
        simp only [router]
        rcases routing_runRoutes w userRoutes rest req' (r.call (Effect.log "User Time:")) with
          hn | ⟨r', hd, route, hmem, hshape⟩
        · rw [hn]
          simp only []
          rw [runLayers_skip w req' _ seg rest (hpath'.trans hpath) hseg]
          rcases routing_catchAll w req' (r.call (Effect.log "User Time:")) with h1 | h1
          · exact ⟨_, by rw [h1, hlog], Or.inr (Or.inl rfl)⟩
          · refine ⟨[Effect.guard, Effect.handler Handler.notImplemented], ?_,
              Or.inr (Or.inr (Or.inl ⟨_, Or.inr rfl, rfl⟩))⟩
            rw [h1, hlog]; simp
        · rw [hd]
          simp only []
          rw [hlog] at hshape
          simp only [userRoutes, List.mem_cons, List.mem_singleton, List.not_mem_nil,
            or_false] at hmem
          rcases hmem with rfl | rfl | rfl | rfl | rfl | rfl | rfl <;>
            simp only [Bool.true_eq_false, Bool.false_eq_true, false_and, true_and, or_false,
              false_or, List.append_assoc, List.singleton_append] at hshape <;>
            exact ⟨_, hshape,
              Or.inr (Or.inr (Or.inl ⟨_, Or.inl (by simp [protectedHandlers]), rfl⟩))⟩

theorem routing_app (w : World) (req : Request) : Shape (routing (app w req)) := by
  unfold app layers
  rw [runLayers]
  by_cases hopt : req.method = Method.OPTIONS
  · simp only [corsLayer, hopt, if_true, Res.finish]
    left
    rw [routing_json, routing_status]
    rfl
  · simp only [corsLayer, hopt, if_false]
    rw [runLayers]
    have hdocs : routing (Res.fresh.call Effect.swaggerUi).trace = [] := by
      simp [routing, Res.call, Res.fresh, Effect.isRouting]
    have hrest : Shape (routing (runLayers w
        [rootLayer, usersLayer, cocktailsLayer, authLayer, catchAllLayer]
        req Res.fresh).trace) := by
      rw [runLayers]
      by_cases hroot : handlesMethod Method.GET req.method = true ∧ req.path = []
      · simp only [rootLayer, hroot, and_self, if_true]
        right; right; right
        exact ⟨Handler.root, Or.inr (Or.inl rfl), by
          rw [routing_run]; simp [routing, Res.fresh]⟩
      · simp only [rootLayer, hroot, if_false]
        obtain ⟨s, hs, hshape⟩ := routing_usersTail w req Res.fresh
        rw [hs]
        simp only [routing, Res.fresh, List.filter_nil, List.nil_append]
        rcases hshape with h | h | h | ⟨h, hh, hs'⟩
        · exact Or.inl h
        · exact Or.inr (Or.inl h)
        · exact Or.inr (Or.inr (Or.inl h))
        · refine Or.inr (Or.inr (Or.inr ⟨h, ?_, hs'⟩))
          rcases hh with hh | hh
          · exact Or.inl hh
          · exact Or.inr (Or.inr hh)
    cases hpath : req.path with
    | nil =>
      simp only [apiDocsLayer, hpath]
      exact hrest
    | cons seg rest =>
      cases hseg : sameSegment "api-docs" seg with
      | true =>
        simp only [apiDocsLayer, hpath, hseg, if_true]
        left; exact hdocs
      | false =>
        simp only [apiDocsLayer, hpath, hseg, Bool.false_eq_true, if_false]
        exact hrest

theorem routing_fresh_call (e : Effect) :
    routing (Res.fresh.call e).trace = if e.isRouting then [e] else [] := by
  cases h : e.isRouting <;> simp [routing, Res.call, Res.fresh, h]

theorem routing_step_call (res : Res) (e : Effect) :
    routing (res.call e).trace = routing res.trace ++ (if e.isRouting then [e] else []) := by
  cases h : e.isRouting <;> simp [routing, Res.call, List.filter_append, h]

/-- C3: scope of the token guard in the route table.  Whenever a handler of
the protected scope (any users route, or a cocktail mutation) is entered, the
guard and handler entries of the trace are the guard followed by that handler;
whenever a cocktail read or the login is entered, the guard is not in the
trace at all.  The second and third parts name the route of each handler: the
cocktail reads and the login are reached whatever the authorization header,
and each protected route reaches its handler, after the guard, when the
header carries a token that verifies. -/
theorem guard_scope (w : World) :
    (∀ req h, Effect.handler h ∈ app w req →
      (h ∈ protectedHandlers → routing (app w req) = [Effect.guard, Effect.handler h]) ∧
      (h ∈ openHandlers →
        routing (app w req) = [Effect.handler h] ∧ Effect.guard ∉ app w req)) ∧
    (∀ auth body id,
      routing (app w (request Method.GET ["cocktails"] auth body))
        = [Effect.handler Handler.cocktailList] ∧
      routing (app w (request Method.GET ["cocktails", id] auth body))
        = [Effect.handler Handler.cocktailGet] ∧
      routing (app w (request Method.POST ["auth", "login"] auth body))
        = [Effect.handler Handler.login]) ∧
    (∀ auth body id token claims, extractBearer auth = some token →
      w.verify token = TokenCheck.valid claims →
      routing (app w (request Method.GET ["users"] auth body))
        = [Effect.guard, Effect.handler Handler.userList] ∧
      routing (app w (request Method.GET ["users", id] auth body))
        = [Effect.guard, Effect.handler Handler.userGet] ∧
      routing (app w (request Method.PUT ["users"] auth body))
        = [Effect.guard, Effect.handler Handler.userCreate] ∧
      routing (app w (request Method.PATCH ["users", id] auth body))
        = [Effect.guard, Effect.handler Handler.userPatch] ∧
      routing (app w (request Method.POST ["users", "untrash", id] auth body))
        = [Effect.guard, Effect.handler Handler.userUntrash] ∧
      routing (app w (request Method.DELETE ["users", "trash", id] auth body))
        = [Effect.guard, Effect.handler Handler.userTrash] ∧
      routing (app w (request Method.DELETE ["users", id] auth body))
        = [Effect.guard, Effect.handler Handler.userDelete] ∧
      routing (app w (request Method.PUT ["cocktails"] auth body))
        = [Effect.guard, Effect.handler Handler.cocktailCreate] ∧
      routing (app w (request Method.PATCH ["cocktails", id] auth body))
        = [Effect.guard, Effect.handler Handler.cocktailPatch] ∧
      routing (app w (request Method.POST ["cocktails", "untrash", id] auth body))
        = [Effect.guard, Effect.handler Handler.cocktailUntrash] ∧
      routing (app w (request Method.DELETE ["cocktails", "trash", id] auth body))
        = [Effect.guard, Effect.handler Handler.cocktailTrash] ∧
      routing (app w (request Method.DELETE ["cocktails", id] auth body))
        = [Effect.guard, Effect.handler Handler.cocktailDelete]) := by
  have s1 : sameSegment "api-docs" "cocktails" = false := by decide
  have s2 : sameSegment "api-docs" "users" = false := by decide
  have s3 : sameSegment "api-docs" "auth" = false := by decide
  have s4 : sameSegment "users" "cocktails" = false := by decide
  have s5 : sameSegment "users" "auth" = false := by decide
  have s6 : sameSegment "cocktails" "auth" = false := by decide
  have s7 : sameSegment "users" "users" = true := by decide
  have s8 : sameSegment "cocktails" "cocktails" = true := by decide
  have s9 : sameSegment "auth" "auth" = true := by decide
  have s10 : sameSegment "login" "login" = true := by decide
  have s11 : sameSegment "untrash" "untrash" = true := by decide
  have s12 : sameSegment "trash" "trash" = true := by decide
  refine ⟨?_, ?_, ?_⟩
  · intro req h hrun
    have hmem : Effect.handler h ∈ routing (app w req) := by
      simp [routing, hrun, Effect.isRouting]
    have hguard : Effect.guard ∈ app w req → Effect.guard ∈ routing (app w req) := by
      intro hg
      simp [routing, hg, Effect.isRouting]
    rcases routing_app w req with hs | hs | ⟨h', hh, hs⟩ | ⟨h', hh, hs⟩
    · rw [hs] at hmem; simp at hmem
    · rw [hs] at hmem; simp at hmem
    · rw [hs] at hmem hguard ⊢
      simp only [List.mem_cons, List.mem_singleton, List.not_mem_nil, or_false,
        Effect.handler.injEq, false_or, reduceCtorEq] at hmem
      subst hmem
      refine ⟨fun _ => rfl, fun ho => ?_⟩
      exfalso
      simp only [openHandlers, List.mem_cons, List.mem_singleton, List.not_mem_nil,
        or_false] at ho
      rcases ho with rfl | rfl | rfl <;> simp [protectedHandlers] at hh
    · rw [hs] at hmem hguard ⊢
      simp only [List.mem_singleton, Effect.handler.injEq] at hmem
      subst hmem
      refine ⟨fun hp => ?_, fun _ => ⟨rfl, fun hg => ?_⟩⟩
      · exfalso
        simp only [protectedHandlers, List.mem_cons, List.mem_singleton, List.not_mem_nil,
          or_false] at hp
        rcases hp with rfl | rfl | rfl | rfl | rfl | rfl | rfl | rfl | rfl | rfl | rfl | rfl <;>
          simp [openHandlers] at hh
      · have := hguard hg
        simp at this
  · intro auth body id
    refine ⟨?_, ?_, ?_⟩ <;>
      simp [app, layers, runLayers, corsLayer, apiDocsLayer, rootLayer, usersLayer,
        cocktailsLayer, authLayer, request, handlesMethod, router, runRoutes, cocktailRoutes,
        authRoutes, matchPattern, routing_run, routing_step_call, Effect.isRouting,
        s1, s2, s3, s4, s5, s6, s7, s8, s9, s10, s11, s12] <;>
      rfl
  · intro auth body id token claims hauth hverify
    have hg : ∀ (req : Request) (res : Res), req.authorization = auth →
        checkTokenMiddleware w req res
          = Step.next { req with user := claims } (res.call Effect.guard) := by
      intro req res hreq
      simp [checkTokenMiddleware, hreq, hauth, hverify]
    refine ⟨?_, ?_, ?_, ?_, ?_, ?_, ?_, ?_, ?_, ?_, ?_, ?_⟩ <;>
      simp [app, layers, runLayers, corsLayer, apiDocsLayer, rootLayer, usersLayer,
        cocktailsLayer, authLayer, request, handlesMethod, router, runRoutes, cocktailRoutes,
        userRoutes, matchPattern, routing_run, routing_step_call, Effect.isRouting, hg,
        s1, s2, s3, s4, s5, s6, s7, s8, s9, s10, s11, s12] <;>
      rfl

/-- Witness of C3: an open read, a guarded creation, and the first part at the
list of cocktails. -/
theorem guard_scope_witness :
    routing (app sampleWorld (request Method.GET ["cocktails"] none (JsVal.obj [])))
      = [Effect.handler Handler.cocktailList] ∧
    routing (app sampleWorld (request Method.PUT ["cocktails"] goodHeader (JsVal.obj [])))
      = [Effect.guard, Effect.handler Handler.cocktailCreate] ∧
    Effect.guard ∉ app sampleWorld (request Method.GET ["cocktails"] none (JsVal.obj [])) :=
  ⟨((guard_scope sampleWorld).2.1 none (JsVal.obj []) "1").1,
    ((guard_scope sampleWorld).2.2 goodHeader (JsVal.obj []) "1" "header.payload.signature"
      (tokenPayload alice) (by decide) rfl).2.2.2.2.2.2.2.1,
    (((guard_scope sampleWorld).1 (request Method.GET ["cocktails"] none (JsVal.obj []))
      Handler.cocktailList
      (by
        rw [show app sampleWorld (request Method.GET ["cocktails"] none (JsVal.obj []))
          = [Effect.log "Cocktail Time:", Effect.handler Handler.cocktailList,
             Effect.findAll Model.Cocktail,
             Effect.send 200 (JsVal.obj [("data", JsVal.arr [])])] from rfl]
        simp)).2 (by simp [openHandlers])).2⟩

/-! ### Creation of a cocktail without a token -/

/-- C4, as stated, fails: a POST to `/cocktails` without a token matches no
route of the cocktails router (creation is registered with PUT) and no later
layer; Express's final handler answers 404, not 401. -/
theorem post_cocktails_not_401 :
    app sampleWorld (request Method.POST ["cocktails"] none newCocktail)
      = [Effect.log "Cocktail Time:", Effect.finalhandler] ∧
    statusOf (app sampleWorld (request Method.POST ["cocktails"] none newCocktail)) = some 404 ∧
    statusOf (app sampleWorld (request Method.POST ["cocktails"] none newCocktail)) ≠ some 401 := by
  refine ⟨rfl, rfl, ?_⟩
  rw [show statusOf (app sampleWorld (request Method.POST ["cocktails"] none newCocktail))
    = some 404 from rfl]
  decide

/-- C4, amended: a PUT to `/cocktails` (the creation route) without a bearer
token is stopped by the guard with status 401 and the creation handler is not
entered; a POST to `/cocktails` does not enter it either, and gets the 404 of
the final handler. -/
theorem create_cocktail_without_token (w : World) (auth : Option String) (body : JsVal)
    (hauth : extractBearer auth = none) :
    app w (request Method.PUT ["cocktails"] auth body)
      = [Effect.log "Cocktail Time:", Effect.guard,
         Effect.send 401 (w.guardBody GuardFailure.noToken)] ∧
    statusOf (app w (request Method.PUT ["cocktails"] auth body)) = some 401 ∧
    Effect.handler Handler.cocktailCreate ∉ app w (request Method.PUT ["cocktails"] auth body) ∧
    app w (request Method.POST ["cocktails"] auth body)
      = [Effect.log "Cocktail Time:", Effect.finalhandler] ∧
    statusOf (app w (request Method.POST ["cocktails"] auth body)) = some 404 ∧
    Effect.handler Handler.cocktailCreate ∉ app w (request Method.POST ["cocktails"] auth body) := by
  have s1 : sameSegment "api-docs" "cocktails" = false := by decide
  have s4 : sameSegment "users" "cocktails" = false := by decide
  have s6 : sameSegment "auth" "cocktails" = false := by decide
  have s8 : sameSegment "cocktails" "cocktails" = true := by decide
  have hput : app w (request Method.PUT ["cocktails"] auth body)
      = [Effect.log "Cocktail Time:", Effect.guard,
         Effect.send 401 (w.guardBody GuardFailure.noToken)] := by
    simp [app, layers, runLayers, corsLayer, apiDocsLayer, rootLayer, usersLayer,
      cocktailsLayer, request, handlesMethod, router, runRoutes, cocktailRoutes,
      matchPattern, checkTokenMiddleware, hauth, Res.json, Res.call, Res.status, Res.fresh,
      Res.answered, s1, s4, s8]
  have hpost : app w (request Method.POST ["cocktails"] auth body)
      = [Effect.log "Cocktail Time:", Effect.finalhandler] := by
    simp [app, layers, runLayers, corsLayer, apiDocsLayer, rootLayer, usersLayer,
      cocktailsLayer, authLayer, catchAllLayer, request, handlesMethod, router, runRoutes,
      cocktailRoutes, matchPattern, Res.call, Res.fresh, s1, s4, s6, s8]
  refine ⟨hput, ?_, ?_, hpost, ?_, ?_⟩
  · rw [hput]; rfl
  · rw [hput]; simp
  · rw [hpost]; rfl
  · rw [hpost]; simp

/-- Witness of C4, amended, in the sample world. -/
theorem create_cocktail_without_token_witness :
    statusOf (app sampleWorld (request Method.PUT ["cocktails"] none newCocktail)) = some 401 ∧
    Effect.handler Handler.cocktailCreate ∉
      app sampleWorld (request Method.PUT ["cocktails"] none newCocktail) :=
  ⟨(create_cocktail_without_token sampleWorld none newCocktail rfl).2.1,
    (create_cocktail_without_token sampleWorld none newCocktail rfl).2.2.1⟩

/-! ### The id parameter -/

/-- C5, evaluated on the code: on the id `abc` the get-by-id handler of either
model sends the number 400 as a body with status 200, then calls `json` again
on the sent response; no store call is made.  The patch handler, on the same
id, answers with status 400. -/
theorem getById_invalid_id (m : Model) (w : World) :
    (getById m w "abc" Res.fresh).trace
      = [Effect.send 200 (JsVal.num 400),
         Effect.headersSent 200 (message "Missing Parameter")] ∧
    statusOf (getById m w "abc" Res.fresh).trace = some 200 ∧
    bodyOf (getById m w "abc" Res.fresh).trace = some (JsVal.num 400) ∧
    app w (request Method.GET ["cocktails", "abc"] none (JsVal.obj []))
      = [Effect.log "Cocktail Time:", Effect.handler Handler.cocktailGet,
         Effect.send 200 (JsVal.num 400),
         Effect.headersSent 200 (message "Missing Parameter")] ∧
    (patch m w "abc" (request Method.PATCH ["cocktails", "abc"] none (JsVal.obj []))
      Res.fresh).trace = [Effect.send 400 (message "Missing parameter")] := by
  refine ⟨rfl, rfl, rfl, rfl, rfl⟩

theorem digitValue_not_decimal (c : Char) (h : isDecimalDigit c = false) :
    digitValue 10 c = none := by
  unfold digitValue
  simp only [isDecimalDigit, Bool.and_eq_false_imp, decide_eq_true_eq, decide_eq_false_iff_not,
    not_le] at h
  simp only []
  split
  · rename_i h'; exact absurd (h h'.1) (by omega)
  · simp

theorem readDigits_not_decimal (l : List Char)
    (h : ∀ d rest, l = d :: rest → isDecimalDigit d = false) :
    readDigits (splitRadix l).1 (splitRadix l).2 0 false = none := by
  unfold splitRadix
  split
  · exact absurd (h _ _ rfl) (by decide)
  · exact absurd (h _ _ rfl) (by decide)
  · cases l with
    | nil => rfl
    | cons d rest =>
      simp only [readDigits, digitValue_not_decimal d (h d rest rfl)]
      rfl

theorem parseUnsigned_not_decimal (l : List Char)
    (h : ∀ d rest, l = d :: rest → isDecimalDigit d = false) (neg : Bool) :
    parseUnsigned neg l = JsVal.nan := by
  unfold parseUnsigned
  rw [readDigits_not_decimal l h]

theorem splitSign_unsigned (c : Char) (rest : List Char) (hm : c ≠ '-') (hp : c ≠ '+') :
    splitSign (c :: rest) = (false, c :: rest) := by
  unfold splitSign
  split
  · rename_i heq; cases heq; exact absurd rfl hm
  · rename_i heq; cases heq; exact absurd rfl hp
  · rfl

theorem parseInt_not_leadingDecimal (s : String) (h : leadingDecimal s = false) :
    parseInt s = JsVal.nan := by
  unfold parseInt parseIntChars
  unfold leadingDecimal at h
  generalize s.toList.dropWhile isStrWhiteSpace = l at h ⊢
  cases l with
  | nil => exact parseUnsigned_not_decimal [] (by simp) false
  | cons c rest =>
    simp only [] at h
    by_cases hm : c = '-'
    · subst hm
      simp only [true_or, if_true] at h
      refine parseUnsigned_not_decimal rest ?_ true
      intro d rest' hr
      subst hr
      simpa using h
    · by_cases hp : c = '+'
      · subst hp
        simp only [or_true, if_true] at h
        refine parseUnsigned_not_decimal rest ?_ false
        intro d rest' hr
        subst hr
        simpa using h
      · simp only [hm, hp, or_self, if_false] at h
        simp only [splitSign_unsigned c rest hm hp]
        refine parseUnsigned_not_decimal (c :: rest) ?_ false
        intro d rest' hr
        cases hr
        exact h

theorem signedNumber_cases (neg : Bool) (n : Nat) :
    (∃ k : Int, signedNumber neg n = JsVal.num k) ∨ signedNumber neg n = JsVal.infinity neg := by
  unfold signedNumber
  split
  · right; rfl
  · left; split <;> exact ⟨_, rfl⟩

theorem parseInt_cases (id : String) :
    parseInt id = JsVal.nan ∨ (∃ k : Int, parseInt id = JsVal.num k) ∨
      ∃ neg, parseInt id = JsVal.infinity neg := by
  unfold parseInt parseIntChars parseUnsigned
  simp only []
  split
  · left; rfl
  · right
    rcases signedNumber_cases _ _ with ⟨k, hk⟩ | hinf
    · left; exact ⟨k, hk⟩
    · right; exact ⟨_, hinf⟩

theorem parseInt_truthy (id : String) (h : (parseInt id).truthy = true) :
    (∃ n : Int, n ≠ 0 ∧ parseInt id = JsVal.num n) ∨
      ∃ neg, parseInt id = JsVal.infinity neg := by
  rcases parseInt_cases id with hp | ⟨k, hp⟩ | ⟨neg, hp⟩
  · rw [hp] at h; simp [JsVal.truthy] at h
  · left
    refine ⟨k, ?_, hp⟩
    rw [hp] at h
    simpa [JsVal.truthy] using h
  · right; exact ⟨neg, hp⟩

theorem bitLengthAux_zero (fuel : Nat) : bitLengthAux fuel 0 = 0 := by
  cases fuel <;> simp [bitLengthAux]

theorem bitLengthAux_pow (fuel : Nat) :
    ∀ n, 0 < n → n ≤ fuel → 2 ^ (bitLengthAux fuel n - 1) ≤ n ∧ 0 < bitLengthAux fuel n := by
  induction fuel with
  | zero => intro n h1 h2; omega
  | succ fuel ih =>
    intro n hpos hle
    have hn : n ≠ 0 := by omega
    simp only [bitLengthAux, hn, if_false, Nat.add_sub_cancel]
    refine ⟨?_, by omega⟩
    by_cases hhalf : n / 2 = 0
    · rw [hhalf, bitLengthAux_zero]
      simpa using hpos
    · obtain ⟨h1, h2⟩ := ih (n / 2) (by omega) (by omega)
      have : bitLengthAux fuel (n / 2) = (bitLengthAux fuel (n / 2) - 1) + 1 := by omega
      rw [this, pow_succ]
      omega

theorem toDouble_small (n : Nat) (h : n < 2 ^ 53) : toDouble n = some n := by
  unfold toDouble
  rw [if_pos h]

theorem toDouble_pos (n d : Nat) (hn : 0 < n) (h : toDouble n = some d) : 0 < d := by
  by_cases hsmall : n < 2 ^ 53
  · rw [toDouble_small n hsmall] at h
    cases h
    exact hn
  · have hlen := (bitLengthAux_pow n n hn (le_refl n)).1
    have hshift : 2 ^ (bitLength n - 53) ≤ n := by
      refine le_trans (Nat.pow_le_pow_right (by decide) ?_) hlen
      unfold bitLength
      omega
    have hpow : 0 < 2 ^ (bitLength n - 53) := Nat.pow_pos (by decide)
    have hq : 0 < n / 2 ^ (bitLength n - 53) := Nat.div_pos hshift hpow
    have key : ∀ rounded : Nat, 0 < rounded →
        (if bitLength (rounded * 2 ^ (bitLength n - 53)) ≤ 1024
          then some (rounded * 2 ^ (bitLength n - 53)) else none) = some d → 0 < d := by
      intro rounded hr hd
      split at hd
      · cases hd; exact Nat.mul_pos hr hpow
      · cases hd
    unfold toDouble at h
    rw [if_neg hsmall] at h
    refine key _ ?_ h
    split <;> omega

theorem signedNumber_truthy (neg : Bool) (n : Nat) (hn : 0 < n) :
    (signedNumber neg n).truthy = true := by
  unfold signedNumber
  cases h : toDouble n with
  | none => rfl
  | some d =>
    have hd := toDouble_pos n d hn h
    simp only []
    split <;> simp [JsVal.truthy] <;> omega

theorem readDigits_decimal (cs : List Char) (hall : cs.all isDecimalDigit = true) :
    ∀ acc seen, (seen = true ∨ cs ≠ []) →
      readDigits 10 cs acc seen
        = some (cs.foldl (fun acc c => acc * 10 + (c.toNat - 48)) acc) := by
  induction cs with
  | nil =>
    intro acc seen h
    rcases h with h | h
    · simp [readDigits, h]
    · exact absurd rfl h
  | cons c cs ih =>
    intro acc seen _
    simp only [List.all_cons, Bool.and_eq_true] at hall
    have hc : digitValue 10 c = some (c.toNat - 48) := by
      have := hall.1
      simp only [isDecimalDigit, Bool.and_eq_true, decide_eq_true_eq] at this
      simp [digitValue, this]
    simp only [readDigits, hc, List.foldl_cons]
    exact ih hall.2 _ true (Or.inl rfl)

theorem parseInt_valid (id : String) (h : validPositiveInteger id = true) :
    parseInt id = signedNumber false (decimalValue id.toList) ∧
      0 < decimalValue id.toList := by
  unfold validPositiveInteger at h
  simp only [Bool.and_eq_true, Bool.not_eq_true', decide_eq_true_eq] at h
  obtain ⟨⟨hne, hall⟩, hpos⟩ := h
  refine ⟨?_, hpos⟩
  unfold parseInt parseIntChars decimalValue
  generalize id.toList = cs at hne hall hpos ⊢
  cases cs with
  | nil => simp at hne
  | cons c rest =>
    have hc : isDecimalDigit c = true := by
      simp only [List.all_cons, Bool.and_eq_true] at hall; exact hall.1
    have hc' : 48 ≤ c.toNat ∧ c.toNat ≤ 57 := by
      simpa [isDecimalDigit] using hc
    have hws : isStrWhiteSpace c = false := by
      simp only [isStrWhiteSpace, Bool.or_eq_false_iff, Bool.and_eq_false_imp,
        decide_eq_false_iff_not, decide_eq_true_eq]
      omega
    have hsign : splitSign (c :: rest) = (false, c :: rest) :=
      splitSign_unsigned c rest (fun hm => absurd (hm ▸ hc) (by decide))
        (fun hp => absurd (hp ▸ hc) (by decide))
    have hradix : splitRadix (c :: rest) = (10, c :: rest) := by
      unfold splitRadix
      split
      · rename_i heq; cases heq
        simp only [List.all_cons, Bool.and_eq_true] at hall
        exact absurd hall.2.1 (by decide)
      · rename_i heq; cases heq
        simp only [List.all_cons, Bool.and_eq_true] at hall
        exact absurd hall.2.1 (by decide)
      · rfl
    simp only [List.dropWhile_cons, hws, Bool.false_eq_true, if_false, hsign, parseUnsigned,
      hradix, readDigits_decimal (c :: rest) hall 0 false (Or.inr (by simp))]

theorem parseInt_valid_truthy (id : String) (h : validPositiveInteger id = true) :
    (parseInt id).truthy = true := by
  obtain ⟨hp, hpos⟩ := parseInt_valid id h
  rw [hp]
  exact signedNumber_truthy false _ hpos

theorem parseInt_valid_safe (id : String) (h : validPositiveInteger id = true)
    (hsafe : decimalValue id.toList < 2 ^ 53) :
    parseInt id = JsVal.num (decimalValue id.toList) := by
  rw [(parseInt_valid id h).1, signedNumber, toDouble_small _ hsafe]
  rfl

/-- C6: on an id segment with no leading decimal integer, the patch,
restore, soft-delete and hard-delete handlers of either model send status 400
with the message `Missing parameter` and nothing else: no store call. -/
theorem non_numeric_id_rejected (m : Model) (w : World) (req : Request) (id : String)
    (h : leadingDecimal id = false) :
    (patch m w id req Res.fresh).trace = [Effect.send 400 (message "Missing parameter")] ∧
    (untrash m w id Res.fresh).trace = [Effect.send 400 (message "Missing parameter")] ∧
    (trash m w id Res.fresh).trace = [Effect.send 400 (message "Missing parameter")] ∧
    (hardDelete m w id Res.fresh).trace = [Effect.send 400 (message "Missing parameter")] := by
  have hp := parseInt_not_leadingDecimal id h
  refine ⟨?_, ?_, ?_, ?_⟩ <;>
    simp [patch, untrash, trash, hardDelete, hp, JsVal.truthy, Res.json, Res.call, Res.status,
      Res.fresh, Res.answered]

/-- Witness of C6: `PATCH /users/abc`. -/
theorem non_numeric_id_rejected_witness :
    (patch Model.User sampleWorld "abc"
      (request Method.PATCH ["users", "abc"] goodHeader (JsVal.obj [])) Res.fresh).trace
      = [Effect.send 400 (message "Missing parameter")] :=
  (non_numeric_id_rejected Model.User sampleWorld
    (request Method.PATCH ["users", "abc"] goodHeader (JsVal.obj [])) "abc" (by decide)).1

/-- C7, as stated, fails: the segments `12abc` and `-5` are not valid
positive integers, yet the handlers query the store, with 12 and with -5. -/
theorem store_reached_with_invalid_id :
    (Effect.findOne Model.User "id" (JsVal.num 12) ∈
        (patch Model.User sampleWorld "12abc"
          (request Method.PATCH ["users", "12abc"] goodHeader (JsVal.obj [])) Res.fresh).trace ∧
      validPositiveInteger "12abc" = false) ∧
    (Effect.destroy Model.Cocktail (JsVal.num (-5)) true ∈
        (hardDelete Model.Cocktail sampleWorld "-5" Res.fresh).trace ∧
      validPositiveInteger "-5" = false) := by
  refine ⟨⟨?_, by decide⟩, ⟨?_, by decide⟩⟩
  · rw [show (patch Model.User sampleWorld "12abc"
        (request Method.PATCH ["users", "12abc"] goodHeader (JsVal.obj [])) Res.fresh).trace
      = [Effect.findOne Model.User "id" (JsVal.num 12),
         Effect.send 404 (message "This user does not exist !")] from rfl]
    simp
  · rw [show (hardDelete Model.Cocktail sampleWorld "-5" Res.fresh).trace
      = [Effect.destroy Model.Cocktail (JsVal.num (-5)) true,
         Effect.send 204 (JsVal.obj [])] from rfl]
    simp

/-- C7, amended: a store call of a handler that takes an id is queried with
the value of `parseInt` on the segment, which is a non-zero number or an
infinity, and the segment begins with a decimal integer; on a segment that is
a valid positive integer below `2^53` the store is queried with the value of
the segment. -/
theorem store_id_is_parsed (m : Model) (w : World) (req : Request) (id : String)
    (t : List Effect) (ht : t ∈ idHandlerTraces m w id req)
    (e : Effect) (he : e ∈ t) (hs : e.isStoreOp = true) :
    e.queriedId = some (parseInt id) ∧
    ((∃ n : Int, n ≠ 0 ∧ parseInt id = JsVal.num n) ∨
      ∃ negative, parseInt id = JsVal.infinity negative) ∧
    leadingDecimal id = true ∧
    (validPositiveInteger id = true → decimalValue id.toList < 2 ^ 53 →
      e.queriedId = some (JsVal.num (decimalValue id.toList))) := by
  have htr : (parseInt id).truthy = true := by
    cases htr : (parseInt id).truthy with
    | true => rfl
    | false =>
      exfalso
      simp only [idHandlerTraces, List.mem_cons, List.mem_singleton, List.not_mem_nil,
        or_false] at ht
      rcases ht with rfl | rfl | rfl | rfl | rfl <;>
        simp [getById, patch, untrash, trash, hardDelete, htr, Res.json, Res.call, Res.status,
          Res.fresh, Res.answered] at he <;>
        (try rcases he with rfl | rfl) <;> simp [Effect.isStoreOp] at hs
  have key : e.queriedId = some (parseInt id) := by
    simp only [idHandlerTraces, List.mem_cons, List.mem_singleton, List.not_mem_nil,
      or_false] at ht
    rcases ht with rfl | rfl | rfl | rfl | rfl
    · unfold getById at he
      simp only [htr, Bool.not_true, Bool.false_eq_true, if_false] at he
      split at he <;>
        simp [Res.json, Res.call, Res.status, Res.fresh, Res.answered] at he <;>
        rcases he with rfl | rfl <;> simp [Effect.isStoreOp] at hs <;>
        simp [Effect.queriedId]
    · unfold patch at he
      simp only [htr, Bool.not_true, Bool.false_eq_true, if_false] at he
      split at he
      · simp [Res.json, Res.call, Res.status, Res.fresh, Res.answered] at he
        rcases he with rfl | rfl <;> simp [Effect.isStoreOp] at hs
        simp [Effect.queriedId]
      · simp [Res.json, Res.call, Res.status, Res.fresh, Res.answered] at he
        rcases he with rfl | rfl <;> simp [Effect.isStoreOp] at hs
        simp [Effect.queriedId]
      · split at he <;>
          simp [Res.json, Res.call, Res.status, Res.fresh, Res.answered] at he <;>
          rcases he with rfl | rfl | rfl <;> simp [Effect.isStoreOp] at hs <;>
          simp [Effect.queriedId]
    · unfold untrash at he
      simp only [htr, Bool.not_true, Bool.false_eq_true, if_false] at he
      split at he <;>
        simp [Res.json, Res.call, Res.status, Res.fresh, Res.answered] at he <;>
        rcases he with rfl | rfl <;> simp [Effect.isStoreOp] at hs <;>
        simp [Effect.queriedId]
    · unfold trash at he
      simp only [htr, Bool.not_true, Bool.false_eq_true, if_false] at he
      split at he <;>
        simp [Res.json, Res.call, Res.status, Res.fresh, Res.answered] at he <;>
        rcases he with rfl | rfl <;> simp [Effect.isStoreOp] at hs <;>
        simp [Effect.queriedId]
    · unfold hardDelete at he
      simp only [htr, Bool.not_true, Bool.false_eq_true, if_false] at he
      split at he <;>
        simp [Res.json, Res.call, Res.status, Res.fresh, Res.answered] at he <;>
        rcases he with rfl | rfl <;> simp [Effect.isStoreOp] at hs <;>
        simp [Effect.queriedId]
  refine ⟨key, parseInt_truthy id htr, ?_, fun hv hsafe => ?_⟩
  · cases hl : leadingDecimal id with
    | true => rfl
    | false =>
      rw [parseInt_not_leadingDecimal id hl] at htr
      simp [JsVal.truthy] at htr
  · rw [key, parseInt_valid_safe id hv hsafe]

/-- Witness of C7, amended: `PATCH /users/1` updates the record with id 1, and
`PATCH /users/9007199254740993` looks up the id 9007199254740992. -/
theorem store_id_is_parsed_witness :
    (validPositiveInteger "1" = true ∧
      (Effect.update Model.User (JsVal.obj []) (JsVal.num 1)).queriedId
        = some (JsVal.num (decimalValue "1".toList))) ∧
    (Effect.findOne Model.User "id" (JsVal.num 9007199254740992)).queriedId
      = some (parseInt "9007199254740993") :=
  ⟨⟨by decide,
    (store_id_is_parsed Model.User sampleWorld
      (request Method.PATCH ["users", "1"] goodHeader (JsVal.obj [])) "1"
      (patch Model.User sampleWorld "1"
        (request Method.PATCH ["users", "1"] goodHeader (JsVal.obj [])) Res.fresh).trace
      (by simp [idHandlerTraces])
      (Effect.update Model.User (JsVal.obj []) (JsVal.num 1))
      (by
        rw [show (patch Model.User sampleWorld "1"
            (request Method.PATCH ["users", "1"] goodHeader (JsVal.obj [])) Res.fresh).trace
          = [Effect.findOne Model.User "id" (JsVal.num 1),
             Effect.update Model.User (JsVal.obj []) (JsVal.num 1),
             Effect.send 200 (message "User Updated")] from rfl]
        simp)
      rfl).2.2.2 (by decide) (by decide)⟩,
    (store_id_is_parsed Model.User sampleWorld
      (request Method.PATCH ["users", "9007199254740993"] goodHeader (JsVal.obj []))
      "9007199254740993"
      (patch Model.User sampleWorld "9007199254740993"
        (request Method.PATCH ["users", "9007199254740993"] goodHeader (JsVal.obj []))
        Res.fresh).trace
      (by simp [idHandlerTraces])
      (Effect.findOne Model.User "id" (JsVal.num 9007199254740992))
      (by
        rw [show (patch Model.User sampleWorld "9007199254740993"
            (request Method.PATCH ["users", "9007199254740993"] goodHeader (JsVal.obj []))
            Res.fresh).trace
          = [Effect.findOne Model.User "id" (JsVal.num 9007199254740992),
             Effect.send 404 (message "This user does not exist !")] from rfl]
        simp)
      rfl).1⟩

/-! ### Creation -/

/-- C8, as stated, fails: a body whose five required fields are present, with
a number as password and an email that no record has, is answered with 500
`Hash Process Error` and no record is created. -/
theorem numeric_password_not_created :
    userRequired.all (fun k => (numericPasswordUser.get k).truthy) = true ∧
    sampleWorld.findOne Model.User "email" (numericPasswordUser.get "email")
      = Outcome.resolve none ∧
    (userCreate sampleWorld (request Method.PUT ["users"] goodHeader numericPasswordUser)
        Res.fresh).trace
      = [Effect.findOne Model.User "email" (JsVal.str "bob@example.com"),
         Effect.hash (JsVal.num 12345) (JsVal.num 10),
         Effect.send 500 (failure "Hash Process Error" (JsVal.str "data must be a string"))] ∧
    statusOf (userCreate sampleWorld
        (request Method.PUT ["users"] goodHeader numericPasswordUser) Res.fresh).trace
      = some 500 :=
  ⟨by decide, rfl, rfl, rfl⟩

/-- C8, amended: decision table of the two creation handlers.  A required
field that is absent or empty (falsy) gives 400 `Missing Data` and no store
call; with all fields present, a lookup by the unique key (email, nom) that
finds a record gives 409 and no creation; a lookup that finds none is
followed, when the store (and for users the hash) succeeds, by exactly one
creation, and the answer carries `message` and, as `data`, the record the
store returned.  A lookup that fails gives 500 `Database Error`, a hash that
fails gives 500 `Hash Process Error` with no creation, and a creation that
fails gives 500 `Database Error`. -/
theorem create_decision_table (w : World) (req : Request) :
    ((∃ k ∈ userRequired, (req.body.get k).truthy = false) →
      (userCreate w req Res.fresh).trace = [Effect.send 400 (message "Missing Data")]) ∧
    ((∀ k ∈ userRequired, (req.body.get k).truthy = true) →
      ∀ existing, w.findOne Model.User "email" (req.body.get "email")
          = Outcome.resolve (some existing) →
      (userCreate w req Res.fresh).trace
        = [Effect.findOne Model.User "email" (req.body.get "email"),
           Effect.send 409
            (message ("The user " ++ (req.body.get "nom").toStr ++ " already exists !"))]) ∧
    ((∀ k ∈ userRequired, (req.body.get k).truthy = true) →
      w.findOne Model.User "email" (req.body.get "email") = Outcome.resolve none →
      ∀ hash record,
      w.hash (req.body.get "password") (parseIntEnv w.BCRYPT_SALT_ROUND)
          = Outcome.resolve hash →
      w.create Model.User (req.body.set "password" (JsVal.str hash)) = Outcome.resolve record →
      (userCreate w req Res.fresh).trace
        = [Effect.findOne Model.User "email" (req.body.get "email"),
           Effect.hash (req.body.get "password") (parseIntEnv w.BCRYPT_SALT_ROUND),
           Effect.create Model.User (req.body.set "password" (JsVal.str hash)),
           Effect.send 200
            (JsVal.obj [("message", JsVal.str "User Created"), ("data", record)])]) ∧
    ((∃ k ∈ cocktailRequired, (req.body.get k).truthy = false) →
      (cocktailCreate w req Res.fresh).trace = [Effect.send 400 (message "Missing Data")]) ∧
    ((∀ k ∈ cocktailRequired, (req.body.get k).truthy = true) →
      ∀ existing, w.findOne Model.Cocktail "nom" (req.body.get "nom")
          = Outcome.resolve (some existing) →
      (cocktailCreate w req Res.fresh).trace
        = [Effect.findOne Model.Cocktail "nom" (req.body.get "nom"),
           Effect.send 409
            (message ("The cocktail " ++ (req.body.get "nom").toStr ++ " already exists !"))]) ∧
    ((∀ k ∈ cocktailRequired, (req.body.get k).truthy = true) →
      w.findOne Model.Cocktail "nom" (req.body.get "nom") = Outcome.resolve none →
      ∀ record, w.create Model.Cocktail req.body = Outcome.resolve record →
      (cocktailCreate w req Res.fresh).trace
        = [Effect.findOne Model.Cocktail "nom" (req.body.get "nom"),
           Effect.create Model.Cocktail req.body,
           Effect.send 200
            (JsVal.obj [("message", JsVal.str "Cocktail Created"), ("data", record)])]) ∧
    ((∀ k ∈ userRequired, (req.body.get k).truthy = true) →
      ∀ err, w.findOne Model.User "email" (req.body.get "email") = Outcome.reject err →
      (userCreate w req Res.fresh).trace
        = [Effect.findOne Model.User "email" (req.body.get "email"),
           Effect.send 500 (failure "Database Error" err)]) ∧
    ((∀ k ∈ userRequired, (req.body.get k).truthy = true) →
      w.findOne Model.User "email" (req.body.get "email") = Outcome.resolve none →
      ∀ err,
      w.hash (req.body.get "password") (parseIntEnv w.BCRYPT_SALT_ROUND)
          = Outcome.reject err →
      (userCreate w req Res.fresh).trace
        = [Effect.findOne Model.User "email" (req.body.get "email"),
           Effect.hash (req.body.get "password") (parseIntEnv w.BCRYPT_SALT_ROUND),
           Effect.send 500 (failure "Hash Process Error" err)]) ∧
    ((∀ k ∈ userRequired, (req.body.get k).truthy = true) →
      w.findOne Model.User "email" (req.body.get "email") = Outcome.resolve none →
      ∀ hash err,
      w.hash (req.body.get "password") (parseIntEnv w.BCRYPT_SALT_ROUND)
          = Outcome.resolve hash →
      w.create Model.User (req.body.set "password" (JsVal.str hash)) = Outcome.reject err →
      (userCreate w req Res.fresh).trace
        = [Effect.findOne Model.User "email" (req.body.get "email"),
           Effect.hash (req.body.get "password") (parseIntEnv w.BCRYPT_SALT_ROUND),
           Effect.create Model.User (req.body.set "password" (JsVal.str hash)),
           Effect.send 500 (failure "Database Error" err)]) ∧
    ((∀ k ∈ cocktailRequired, (req.body.get k).truthy = true) →
      ∀ err, w.findOne Model.Cocktail "nom" (req.body.get "nom") = Outcome.reject err →
      (cocktailCreate w req Res.fresh).trace
        = [Effect.findOne Model.Cocktail "nom" (req.body.get "nom"),
           Effect.send 500 (failure "Database Error" err)]) ∧
    ((∀ k ∈ cocktailRequired, (req.body.get k).truthy = true) →
      w.findOne Model.Cocktail "nom" (req.body.get "nom") = Outcome.resolve none →
      ∀ err, w.create Model.Cocktail req.body = Outcome.reject err →
      (cocktailCreate w req Res.fresh).trace
        = [Effect.findOne Model.Cocktail "nom" (req.body.get "nom"),
           Effect.create Model.Cocktail req.body,
           Effect.send 500 (failure "Database Error" err)]) := by
  refine ⟨?_, ?_, ?_, ?_, ?_, ?_, ?_, ?_, ?_, ?_, ?_⟩
  · rintro ⟨k, hk, hf⟩
    have : (!(req.body.get "nom").truthy || !(req.body.get "prenom").truthy ||
        !(req.body.get "pseudo").truthy || !(req.body.get "email").truthy ||
        !(req.body.get "password").truthy) = true := by
      simp only [userRequired, List.mem_cons, List.mem_singleton, List.not_mem_nil,
        or_false] at hk
      rcases hk with rfl | rfl | rfl | rfl | rfl <;> simp [hf]
    simp [userCreate, this, Res.json, Res.call, Res.status, Res.fresh, Res.answered]
  · intro hall existing hfind
    simp only [userRequired, List.mem_cons, List.mem_singleton, List.not_mem_nil, or_false,
      forall_eq_or_imp, forall_eq] at hall
    simp [userCreate, hall, hfind, Res.json, Res.call, Res.status, Res.fresh, Res.answered]
  · intro hall hfind hash record hhash hcreate
    simp only [userRequired, List.mem_cons, List.mem_singleton, List.not_mem_nil, or_false,
      forall_eq_or_imp, forall_eq] at hall
    simp [userCreate, hall, hfind, hhash, hcreate, Res.json, Res.call, Res.status, Res.fresh,
      Res.answered]
  · rintro ⟨k, hk, hf⟩
    have : (!(req.body.get "user_id").truthy || !(req.body.get "nom").truthy ||
        !(req.body.get "description").truthy || !(req.body.get "recette").truthy) = true := by
      simp only [cocktailRequired, List.mem_cons, List.mem_singleton, List.not_mem_nil,
        or_false] at hk
      rcases hk with rfl | rfl | rfl | rfl <;> simp [hf]
    simp [cocktailCreate, this, Res.json, Res.call, Res.status, Res.fresh, Res.answered]
  · intro hall existing hfind
    simp only [cocktailRequired, List.mem_cons, List.mem_singleton, List.not_mem_nil, or_false,
      forall_eq_or_imp, forall_eq] at hall
    simp [cocktailCreate, hall, hfind, Res.json, Res.call, Res.status, Res.fresh, Res.answered]
  · intro hall hfind record hcreate
    simp only [cocktailRequired, List.mem_cons, List.mem_singleton, List.not_mem_nil, or_false,
      forall_eq_or_imp, forall_eq] at hall
    simp [cocktailCreate, hall, hfind, hcreate, Res.json, Res.call, Res.status, Res.fresh,
      Res.answered]
  · intro hall err hfind
    simp only [userRequired, List.mem_cons, List.mem_singleton, List.not_mem_nil, or_false,
      forall_eq_or_imp, forall_eq] at hall
    simp [userCreate, hall, hfind, Res.json, Res.call, Res.status, Res.fresh, Res.answered]
  · intro hall hfind err hhash
    simp only [userRequired, List.mem_cons, List.mem_singleton, List.not_mem_nil, or_false,
      forall_eq_or_imp, forall_eq] at hall
    simp [userCreate, hall, hfind, hhash, Res.json, Res.call, Res.status, Res.fresh,
      Res.answered]
  · intro hall hfind hash err hhash hcreate
    simp only [userRequired, List.mem_cons, List.mem_singleton, List.not_mem_nil, or_false,
      forall_eq_or_imp, forall_eq] at hall
    simp [userCreate, hall, hfind, hhash, hcreate, Res.json, Res.call, Res.status, Res.fresh,
      Res.answered]
  · intro hall err hfind
    simp only [cocktailRequired, List.mem_cons, List.mem_singleton, List.not_mem_nil, or_false,
      forall_eq_or_imp, forall_eq] at hall
    simp [cocktailCreate, hall, hfind, Res.json, Res.call, Res.status, Res.fresh, Res.answered]
  · intro hall hfind err hcreate
    simp only [cocktailRequired, List.mem_cons, List.mem_singleton, List.not_mem_nil, or_false,
      forall_eq_or_imp, forall_eq] at hall
    simp [cocktailCreate, hall, hfind, hcreate, Res.json, Res.call, Res.status, Res.fresh,
      Res.answered]

/-- Witness of C8, amended: a new user is created, an empty cocktail is
refused, and a lookup that fails is answered with 500. -/
theorem create_decision_table_witness :
    (userCreate sampleWorld (request Method.PUT ["users"] goodHeader newUser) Res.fresh).trace
      = [Effect.findOne Model.User "email" (JsVal.str "bob@example.com"),
         Effect.hash (JsVal.str "hunter2") (JsVal.num 10),
         Effect.create Model.User (newUser.set "password" (JsVal.str "$2b$10$fresh")),
         Effect.send 200 (JsVal.obj [("message", JsVal.str "User Created"),
           ("data", newUser.set "password" (JsVal.str "$2b$10$fresh"))])] ∧
    (cocktailCreate sampleWorld (request Method.PUT ["cocktails"] goodHeader (JsVal.obj []))
        Res.fresh).trace = [Effect.send 400 (message "Missing Data")] ∧
    (userCreate brokenWorld (request Method.PUT ["users"] goodHeader newUser) Res.fresh).trace
      = [Effect.findOne Model.User "email" (JsVal.str "bob@example.com"),
         Effect.send 500 (failure "Database Error" (JsVal.str "ECONNREFUSED"))] :=
  ⟨(create_decision_table sampleWorld (request Method.PUT ["users"] goodHeader newUser)).2.2.1
      (by decide) rfl "$2b$10$fresh" (newUser.set "password" (JsVal.str "$2b$10$fresh"))
      rfl rfl,
    (create_decision_table sampleWorld
      (request Method.PUT ["cocktails"] goodHeader (JsVal.obj []))).2.2.2.1
      ⟨"nom", by decide, rfl⟩,
    (create_decision_table brokenWorld
      (request Method.PUT ["users"] goodHeader newUser)).2.2.2.2.2.2.1
      (by decide) (JsVal.str "ECONNREFUSED") rfl⟩

theorem lookup_assign_same (k : String) (x : JsVal) (fields : List (String × JsVal)) :
    JsVal.lookup k (JsVal.assign k x fields) = x := by
  induction fields with
  | nil => simp [JsVal.assign, JsVal.lookup]
  | cons f rest ih =>
    obtain ⟨k', v⟩ := f
    by_cases h : k' = k
    · simp [JsVal.assign, JsVal.lookup, h]
    · simp [JsVal.assign, JsVal.lookup, h, ih]

theorem lookup_assign_other (k k' : String) (x : JsVal) (fields : List (String × JsVal))
    (hk : k' ≠ k) : JsVal.lookup k' (JsVal.assign k x fields) = JsVal.lookup k' fields := by
  induction fields with
  | nil => simp [JsVal.assign, JsVal.lookup, Ne.symm hk]
  | cons f rest ih =>
    obtain ⟨k'', v⟩ := f
    by_cases h : k'' = k
    · subst h
      simp [JsVal.assign, JsVal.lookup, Ne.symm hk]
    · by_cases h' : k'' = k'
      · subst h'
        simp [JsVal.assign, JsVal.lookup, hk]
      · simp [JsVal.assign, JsVal.lookup, h, h', ih]

theorem get_set_other (body : JsVal) (k k' : String) (x : JsVal) (hk : k' ≠ k) :
    (body.set k x).get k' = body.get k' := by
  cases body <;> simp [JsVal.set, JsVal.get, lookup_assign_other _ _ _ _ hk]

theorem get_set_same (body : JsVal) (k : String) (x : JsVal)
    (h : (body.get k).truthy = true) : (body.set k x).get k = x := by
  cases body <;> simp [JsVal.get, JsVal.truthy] at h
  simp [JsVal.set, JsVal.get, lookup_assign_same]

/-- C9: whenever the user creation hands a record to the store, the hash of
the submitted password was computed with `parseInt` of `BCRYPT_SALT_ROUND` as
the number of rounds (`NaN` when the variable is not set) and resolved, the
record is the body with `password` replaced by that digest, every other field
is as submitted, the password field differs from the plaintext as soon as the
digest does, and the response body is the fixed message with the record the
store returned (or the store's fault): the handler puts nothing of the
request in it. -/
theorem user_create_hashes_password (w : World) (req : Request) (values : JsVal)
    (h : Effect.create Model.User values ∈ (userCreate w req Res.fresh).trace) :
    ∃ hash rounds,
      (∀ v, w.BCRYPT_SALT_ROUND = some v → rounds = parseInt v) ∧
      (w.BCRYPT_SALT_ROUND = none → rounds = JsVal.nan) ∧
      Effect.hash (req.body.get "password") rounds ∈ (userCreate w req Res.fresh).trace ∧
      w.hash (req.body.get "password") rounds = Outcome.resolve hash ∧
      values = req.body.set "password" (JsVal.str hash) ∧
      values.get "password" = JsVal.str hash ∧
      (∀ k, k ≠ "password" → values.get k = req.body.get k) ∧
      (JsVal.str hash ≠ req.body.get "password" →
        values.get "password" ≠ req.body.get "password") ∧
      ((∃ record, w.create Model.User values = Outcome.resolve record ∧
          bodyOf (userCreate w req Res.fresh).trace
            = some (JsVal.obj [("message", JsVal.str "User Created"), ("data", record)])) ∨
        (∃ err, w.create Model.User values = Outcome.reject err ∧
          bodyOf (userCreate w req Res.fresh).trace
            = some (failure "Database Error" err))) := by
  have hrounds : (∀ v, w.BCRYPT_SALT_ROUND = some v → parseIntEnv w.BCRYPT_SALT_ROUND = parseInt v)
      ∧ (w.BCRYPT_SALT_ROUND = none → parseIntEnv w.BCRYPT_SALT_ROUND = JsVal.nan) :=
    ⟨fun v hv => by rw [hv]; rfl, fun hv => by rw [hv]; rfl⟩
  unfold userCreate at h
  simp only [] at h
  split at h
  · simp [Res.json, Res.call, Res.status, Res.fresh, Res.answered] at h
  · rename_i hreq
    simp only [Bool.or_eq_true, Bool.not_eq_true', not_or, Bool.not_eq_false] at hreq
    obtain ⟨⟨⟨⟨hnom, hprenom⟩, hpseudo⟩, hemail⟩, hpw⟩ := hreq
    have hreq' : (!(req.body.get "nom").truthy || !(req.body.get "prenom").truthy ||
        !(req.body.get "pseudo").truthy || !(req.body.get "email").truthy ||
        !(req.body.get "password").truthy) = false := by
      simp [hnom, hprenom, hpseudo, hemail, hpw]
    cases hfind : w.findOne Model.User "email" (req.body.get "email") with
    | reject err =>
      simp [hfind, Res.json, Res.call, Res.status, Res.fresh, Res.answered] at h
    | resolve found =>
      cases found with
      | some existing =>
        simp [hfind, Res.json, Res.call, Res.status, Res.fresh, Res.answered] at h
      | none =>
        cases hhash : w.hash (req.body.get "password") (parseIntEnv w.BCRYPT_SALT_ROUND) with
        | reject err =>
          simp [hfind, hhash, Res.json, Res.call, Res.status, Res.fresh, Res.answered] at h
        | resolve hash =>
          have hvalues : values = req.body.set "password" (JsVal.str hash) := by
            cases hcreate : w.create Model.User (req.body.set "password" (JsVal.str hash)) <;>
              simp [hfind, hhash, hcreate, Res.json, Res.call, Res.status, Res.fresh,
                Res.answered] at h <;> exact h
          subst hvalues
          have hsame := get_set_same req.body "password" (JsVal.str hash) hpw
          refine ⟨hash, parseIntEnv w.BCRYPT_SALT_ROUND, hrounds.1, hrounds.2, ?_, hhash, rfl,
            hsame, fun k hk => get_set_other _ _ _ _ hk, ?_, ?_⟩
          · cases hcreate : w.create Model.User (req.body.set "password" (JsVal.str hash)) <;>
              simp [userCreate, hreq', hfind, hhash, hcreate, Res.json, Res.call, Res.status,
                Res.fresh, Res.answered]
          · intro hne
            rw [hsame]
            exact hne
          · cases hcreate : w.create Model.User (req.body.set "password" (JsVal.str hash)) with
            | resolve record =>
              left
              refine ⟨record, rfl, ?_⟩
              simp [userCreate, hreq', hfind, hhash, hcreate, Res.json, Res.call, Res.status,
                Res.fresh, Res.answered, bodyOf]
            | reject err =>
              right
              refine ⟨err, rfl, ?_⟩
              simp [userCreate, hreq', hfind, hhash, hcreate, Res.json, Res.call, Res.status,
                Res.fresh, Res.answered, bodyOf]

/-- Witness of C9: with `BCRYPT_SALT_ROUND` set to `12`, the creation of a
user hashes the password `hunter2` with 12 rounds. -/
theorem user_create_hashes_password_witness :
    Effect.hash (JsVal.str "hunter2") (JsVal.num 12) ∈
      (userCreate roundsWorld (request Method.PUT ["users"] goodHeader newUser)
        Res.fresh).trace ∧
    (newUser.set "password" (JsVal.str "$2b$10$fresh")).get "password"
      ≠ JsVal.str "hunter2" ∧
    (newUser.set "password" (JsVal.str "$2b$10$fresh")).get "email"
      = JsVal.str "bob@example.com" :=
  match user_create_hashes_password roundsWorld
      (request Method.PUT ["users"] goodHeader newUser)
      (newUser.set "password" (JsVal.str "$2b$10$fresh"))
      (by
        rw [show (userCreate roundsWorld (request Method.PUT ["users"] goodHeader newUser)
            Res.fresh).trace
          = [Effect.findOne Model.User "email" (JsVal.str "bob@example.com"),
             Effect.hash (JsVal.str "hunter2") (JsVal.num 12),
             Effect.create Model.User (newUser.set "password" (JsVal.str "$2b$10$fresh")),
             Effect.send 200 (JsVal.obj [("message", JsVal.str "User Created"),
               ("data", newUser.set "password" (JsVal.str "$2b$10$fresh"))])] from rfl]
        simp) with
  | ⟨hash, rounds, hpin, _, hmem, hhash, _, _, hother, hdiff, _⟩ => by
    have hr : rounds = JsVal.num 12 := hpin "12" rfl
    subst hr
    have hh : hash = "$2b$10$fresh" := by
      have h1 : Outcome.resolve "$2b$10$fresh" = Outcome.resolve hash := hhash
      cases h1
      rfl
    subst hh
    exact ⟨hmem, hdiff (fun heq => absurd (JsVal.str.inj heq) (by decide)),
      hother "email" (by decide)⟩

/-! ### Requests that match no route -/

theorem runRoutes_no_match (w : World) (routes : List Route) (rest : List String)
    (req : Request) (res : Res) (h : routeMatches routes req.method rest = false) :
    runRoutes w routes rest req res = Step.next req res := by
  induction routes with
  | nil => rfl
  | cons r rs ih =>
    simp only [routeMatches, List.any_cons, Bool.or_eq_false_iff, Bool.and_eq_false_imp] at h
    obtain ⟨h1, h2⟩ := h
    unfold runRoutes
    split
    · rename_i hm
      have := h1 hm
      cases hmp : matchPattern r.pattern rest with
      | some c => rw [hmp] at this; simp at this
      | none => exact ih h2
    · exact ih h2

theorem guard_rejects (w : World) (req : Request) (res : Res) (h : guardPasses w req = false) :
    ∃ body, checkTokenMiddleware w req res
      = Step.done (((res.call Effect.guard).status 401).json body) := by
  unfold guardPasses at h
  unfold checkTokenMiddleware
  simp only []
  split at h
  · exact ⟨_, rfl⟩
  · rename_i token heq
    split at h
    · cases h
    · cases hv : w.verify token with
      | valid claims => rename_i hne; exact absurd hv (hne claims)
      | invalidSignature => exact ⟨_, rfl⟩
      | expired => exact ⟨_, rfl⟩

theorem guard_accepts (w : World) (req : Request) (res : Res) (h : guardPasses w req = true) :
    ∃ claims, checkTokenMiddleware w req res
      = Step.next { req with user := claims } (res.call Effect.guard) := by
  unfold guardPasses at h
  unfold checkTokenMiddleware
  simp only []
  split at h
  · cases h
  · rename_i token heq
    split at h
    · rename_i claims hv
      rw [hv]
      exact ⟨claims, rfl⟩
    · cases h

/-- C10, as stated, fails: `POST /nothing` matches no route, and the answer
is the 404 of Express's final handler, since the catch-all is registered for
GET only; and `GET /users/a/b` without a token matches no route either and is
answered 401 by the guard, which runs before the catch-all. -/
theorem post_unmatched_not_501 :
    (definedRoute (request Method.POST ["nothing"] none (JsVal.obj [])) = false ∧
      app sampleWorld (request Method.POST ["nothing"] none (JsVal.obj []))
        = [Effect.finalhandler] ∧
      statusOf (app sampleWorld (request Method.POST ["nothing"] none (JsVal.obj [])))
        ≠ some 501) ∧
    (definedRoute (request Method.GET ["users", "a", "b"] none (JsVal.obj [])) = false ∧
      statusOf (app sampleWorld (request Method.GET ["users", "a", "b"] none (JsVal.obj [])))
        = some 401) := by
  refine ⟨⟨by decide, rfl, ?_⟩, by decide, rfl⟩
  rw [show statusOf (app sampleWorld (request Method.POST ["nothing"] none (JsVal.obj [])))
    = some 404 from rfl]
  decide

/-- C10, amended: a request that matches no defined route is answered 501
when its method is GET (or HEAD), unless it is under `/users` and the guard
stops it (401); with another method it is not answered by the catch-all: a
preflight gets 204 from the CORS layer, and the rest the guard's 401 under
`/users` or the 404 of the final handler. -/
theorem unmatched_route_status (w : World) (req : Request) (h : definedRoute req = false) :
    statusOf (app w req) = some (
      if req.method = Method.OPTIONS then 204
      else if underUsers req && !guardPasses w req then 401
      else if handlesMethod Method.GET req.method then 501
      else 404) := by
  obtain ⟨method, path, auth, body, user⟩ := req
  simp only [] at h ⊢
  by_cases hopt : method = Method.OPTIONS
  · simp [app, layers, runLayers, corsLayer, hopt, Res.finish, Res.json, Res.call, Res.status,
      Res.fresh, Res.answered, statusOf]
  · cases path with
    | nil =>
      have hget : handlesMethod Method.GET method = false := by
        simpa [definedRoute] using h
      simp [app, layers, runLayers, corsLayer, apiDocsLayer, rootLayer, usersLayer,
        cocktailsLayer, authLayer, catchAllLayer, hopt, hget, underUsers, Res.call,
        Res.fresh, statusOf]
    | cons seg rest =>
      simp only [definedRoute, Bool.or_eq_false_iff, Bool.and_eq_false_imp] at h
      obtain ⟨⟨⟨hdocs, husers⟩, hcock⟩, hauth⟩ := h
      cases hu : sameSegment "users" seg with
      | true =>
        have hc := sameSegment_excl "users" "cocktails" seg (by decide) hu
        have ha := sameSegment_excl "users" "auth" seg (by decide) hu
        have hno := husers hu
        cases hg : guardPasses w ⟨method, seg :: rest, auth, body, user⟩ with
        | false =>
          obtain ⟨body', hgr⟩ := guard_rejects w ⟨method, seg :: rest, auth, body, user⟩
            Res.fresh hg
          simp [app, layers, runLayers, corsLayer, apiDocsLayer, rootLayer, usersLayer, hopt,
            hdocs, hu, hgr, underUsers, hg]
          simp [Res.json, Res.call, Res.status, Res.fresh, Res.answered, statusOf]
        | true =>
          obtain ⟨claims, hga⟩ := guard_accepts w ⟨method, seg :: rest, auth, body, user⟩
            Res.fresh hg
          have hrr := runRoutes_no_match w userRoutes rest
            ⟨method, seg :: rest, auth, body, claims⟩
            ((Res.fresh.call Effect.guard).call (Effect.log "User Time:")) hno
          cases hget : handlesMethod Method.GET method <;>
            simp [app, layers, runLayers, corsLayer, apiDocsLayer, rootLayer, usersLayer,
              cocktailsLayer, authLayer, catchAllLayer, router, hopt,
              hdocs, hu, hc, ha, hga, hrr, hget, underUsers, hg]
            <;> simp [Handler.run, Res.json, Res.call, Res.status, Res.fresh, Res.answered,
              statusOf]
      | false =>
        cases hc : sameSegment "cocktails" seg with
        | true =>
          have ha := sameSegment_excl "cocktails" "auth" seg (by decide) hc
          have hrr := runRoutes_no_match w cocktailRoutes rest
            ⟨method, seg :: rest, auth, body, user⟩
            (Res.fresh.call (Effect.log "Cocktail Time:")) (hcock hc)
          cases hget : handlesMethod Method.GET method <;>
            simp [app, layers, runLayers, corsLayer, apiDocsLayer, rootLayer, usersLayer,
              cocktailsLayer, authLayer, catchAllLayer, router, hopt,
              hdocs, hu, hc, ha, hrr, hget, underUsers]
            <;> simp [Handler.run, Res.json, Res.call, Res.status, Res.fresh, Res.answered,
              statusOf]
        | false =>
          cases ha : sameSegment "auth" seg with
          | true =>
            have hrr := runRoutes_no_match w authRoutes rest
              ⟨method, seg :: rest, auth, body, user⟩
              (Res.fresh.call (Effect.log "AUTH Time:")) (hauth ha)
            cases hget : handlesMethod Method.GET method <;>
              simp [app, layers, runLayers, corsLayer, apiDocsLayer, rootLayer, usersLayer,
                cocktailsLayer, authLayer, catchAllLayer, router, hopt,
                hdocs, hu, hc, ha, hrr, hget, underUsers]
              <;> simp [Handler.run, Res.json, Res.call, Res.status, Res.fresh, Res.answered,
                statusOf]
          | false =>
            cases hget : handlesMethod Method.GET method <;>
              simp [app, layers, runLayers, corsLayer, apiDocsLayer, rootLayer, usersLayer,
                cocktailsLayer, authLayer, catchAllLayer, router, hopt,
                hdocs, hu, hc, ha, hget, underUsers]
              <;> simp [Handler.run, Res.json, Res.call, Res.status, Res.fresh, Res.answered,
                statusOf]

/-- Witness of C10, amended: an unknown path with GET, and a known path with
a method it has no route for. -/
theorem unmatched_route_status_witness :
    statusOf (app sampleWorld (request Method.GET ["nothing"] none (JsVal.obj []))) = some 501 ∧
    statusOf (app sampleWorld (request Method.DELETE ["auth", "login"] none (JsVal.obj [])))
      = some 404 :=
  ⟨unmatched_route_status sampleWorld (request Method.GET ["nothing"] none (JsVal.obj []))
      (by decide),
    unmatched_route_status sampleWorld
      (request Method.DELETE ["auth", "login"] none (JsVal.obj [])) (by decide)⟩

/-! ### Handlers inside the application

A handler entered by the application starts from a response that carries the
entries of the layers before it; its own entries are those it produces from a
fresh response. -/

theorem answered_append (a b : List Effect) :
    Res.answered (a ++ b) = (Res.answered a || Res.answered b) := by
  induction a with
  | nil => simp [Res.answered]
  | cons e rest ih => cases e <;> simp [Res.answered, ih]

theorem login_frame (w : World) (req : Request) (res : Res)
    (ha : Res.answered res.trace = false) (hs : res.statusCode = 200) :
    (login w req res).trace = res.trace ++ (login w req Res.fresh).trace := by
  obtain ⟨code, trace⟩ := res
  simp only [] at ha hs
  subst hs
  simp only [login]
  repeat' split
  all_goals
    simp [Res.json, Res.call, Res.status, Res.fresh, Res.answered, answered_append, ha]

theorem list_frame (m : Model) (w : World) (res : Res)
    (ha : Res.answered res.trace = false) (hs : res.statusCode = 200) :
    (list m w res).trace = res.trace ++ (list m w Res.fresh).trace := by
  obtain ⟨code, trace⟩ := res
  simp only [] at ha hs
  subst hs
  simp only [list]
  repeat' split
  all_goals
    simp [Res.json, Res.call, Res.status, Res.fresh, Res.answered, answered_append, ha]

theorem getById_frame (m : Model) (w : World) (id : String) (res : Res)
    (ha : Res.answered res.trace = false) (hs : res.statusCode = 200) :
    (getById m w id res).trace = res.trace ++ (getById m w id Res.fresh).trace := by
  obtain ⟨code, trace⟩ := res
  simp only [] at ha hs
  subst hs
  simp only [getById]
  repeat' split
  all_goals
    simp [Res.json, Res.call, Res.status, Res.fresh, Res.answered, answered_append, ha]

theorem userCreate_frame (w : World) (req : Request) (res : Res)
    (ha : Res.answered res.trace = false) (hs : res.statusCode = 200) :
    (userCreate w req res).trace = res.trace ++ (userCreate w req Res.fresh).trace := by
  obtain ⟨code, trace⟩ := res
  simp only [] at ha hs
  subst hs
  simp only [userCreate]
  repeat' split
  all_goals
    simp [Res.json, Res.call, Res.status, Res.fresh, Res.answered, answered_append, ha]

theorem cocktailCreate_frame (w : World) (req : Request) (res : Res)
    (ha : Res.answered res.trace = false) (hs : res.statusCode = 200) :
    (cocktailCreate w req res).trace = res.trace ++ (cocktailCreate w req Res.fresh).trace := by
  obtain ⟨code, trace⟩ := res
  simp only [] at ha hs
  subst hs
  simp only [cocktailCreate]
  repeat' split
  all_goals
    simp [Res.json, Res.call, Res.status, Res.fresh, Res.answered, answered_append, ha]

theorem patch_frame (m : Model) (w : World) (id : String) (req : Request) (res : Res)
    (ha : Res.answered res.trace = false) (hs : res.statusCode = 200) :
    (patch m w id req res).trace = res.trace ++ (patch m w id req Res.fresh).trace := by
  obtain ⟨code, trace⟩ := res
  simp only [] at ha hs
  subst hs
  simp only [patch]
  repeat' split
  all_goals
    simp [Res.json, Res.call, Res.status, Res.fresh, Res.answered, answered_append, ha]

theorem untrash_frame (m : Model) (w : World) (id : String) (res : Res)
    (ha : Res.answered res.trace = false) (hs : res.statusCode = 200) :
    (untrash m w id res).trace = res.trace ++ (untrash m w id Res.fresh).trace := by
  obtain ⟨code, trace⟩ := res
  simp only [] at ha hs
  subst hs
  simp only [untrash]
  repeat' split
  all_goals
    simp [Res.json, Res.call, Res.status, Res.fresh, Res.answered, answered_append, ha]

theorem trash_frame (m : Model) (w : World) (id : String) (res : Res)
    (ha : Res.answered res.trace = false) (hs : res.statusCode = 200) :
    (trash m w id res).trace = res.trace ++ (trash m w id Res.fresh).trace := by
  obtain ⟨code, trace⟩ := res
  simp only [] at ha hs
  subst hs
  simp only [trash]
  repeat' split
  all_goals
    simp [Res.json, Res.call, Res.status, Res.fresh, Res.answered, answered_append, ha]

theorem hardDelete_frame (m : Model) (w : World) (id : String) (res : Res)
    (ha : Res.answered res.trace = false) (hs : res.statusCode = 200) :
    (hardDelete m w id res).trace = res.trace ++ (hardDelete m w id Res.fresh).trace := by
  obtain ⟨code, trace⟩ := res
  simp only [] at ha hs
  subst hs
  simp only [hardDelete]
  repeat' split
  all_goals
    simp [Res.json, Res.call, Res.status, Res.fresh, Res.answered, answered_append, ha]

theorem app_login (w : World) (auth : Option String) (body : JsVal) :
    app w (request Method.POST ["auth", "login"] auth body)
      = Effect.log "AUTH Time:" :: Effect.handler Handler.login ::
        (login w (request Method.POST ["auth", "login"] auth body) Res.fresh).trace := by
  have s3 : sameSegment "api-docs" "auth" = false := by decide
  have s5 : sameSegment "users" "auth" = false := by decide
  have s6 : sameSegment "cocktails" "auth" = false := by decide
  have s9 : sameSegment "auth" "auth" = true := by decide
  have s10 : sameSegment "login" "login" = true := by decide
  have hframe := login_frame w (request Method.POST ["auth", "login"] auth body)
    ((Res.fresh.call (Effect.log "AUTH Time:")).call (Effect.handler Handler.login)) rfl rfl
  simp only [app, layers, runLayers, corsLayer, apiDocsLayer, rootLayer, usersLayer,
    cocktailsLayer, authLayer, request, handlesMethod, router, runRoutes, authRoutes,
    matchPattern, Handler.run, s3, s5, s6, s9, s10] at hframe ⊢
  simpa using hframe

theorem app_cocktailGet (w : World) (auth : Option String) (body : JsVal) (id : String) :
    app w (request Method.GET ["cocktails", id] auth body)
      = Effect.log "Cocktail Time:" :: Effect.handler Handler.cocktailGet ::
        (getById Model.Cocktail w id Res.fresh).trace := by
  have s1 : sameSegment "api-docs" "cocktails" = false := by decide
  have s4 : sameSegment "users" "cocktails" = false := by decide
  have s8 : sameSegment "cocktails" "cocktails" = true := by decide
  have hframe := getById_frame Model.Cocktail w id
    ((Res.fresh.call (Effect.log "Cocktail Time:")).call (Effect.handler Handler.cocktailGet))
    rfl rfl
  simp [app, layers, runLayers, corsLayer, apiDocsLayer, rootLayer, usersLayer,
    cocktailsLayer, request, handlesMethod, router, runRoutes, cocktailRoutes,
    matchPattern, Handler.run, s1, s4, s8, hframe]
  rfl

/-! ### Absent records -/

theorem limitWorld_records (m : Model) (key : String) (val record : JsVal)
    (h : limitWorld.findOne m key val = Outcome.resolve (some record)) :
    record = alice ∨ record = limitRecord := by
  unfold limitWorld at h
  simp only [] at h
  split at h
  · right
    cases h
    rfl
  · unfold sampleWorld at h
    simp only [] at h
    split at h
    · left; cases h; rfl
    · left; cases h; rfl
    · cases h

/-- C11, as stated, fails: the segment `9007199254740993` is a valid positive
integer and no record of the store has that id, yet get-by-id answers 200
with the record of id 9007199254740992, and patch updates that record. -/
theorem rounded_id_is_found :
    validPositiveInteger "9007199254740993" = true ∧
    decimalValue "9007199254740993".toList = 9007199254740993 ∧
    (∀ m key val record,
      limitWorld.findOne m key val = Outcome.resolve (some record) →
      record.get "id" = JsVal.num 1 ∨ record.get "id" = JsVal.num 9007199254740992) ∧
    (getById Model.Cocktail limitWorld "9007199254740993" Res.fresh).trace
      = [Effect.findOne Model.Cocktail "id" (JsVal.num 9007199254740992),
         Effect.send 200 (JsVal.obj [("data", limitRecord)])] ∧
    statusOf (getById Model.Cocktail limitWorld "9007199254740993" Res.fresh).trace
      = some 200 ∧
    (patch Model.Cocktail limitWorld "9007199254740993"
        (request Method.PATCH ["cocktails", "9007199254740993"] goodHeader
          (JsVal.obj [("nom", JsVal.str "Renamed")])) Res.fresh).trace
      = [Effect.findOne Model.Cocktail "id" (JsVal.num 9007199254740992),
         Effect.update Model.Cocktail (JsVal.obj [("nom", JsVal.str "Renamed")])
          (JsVal.num 9007199254740992),
         Effect.send 200 (message "Cocktail Updated")] :=
  ⟨by decide, by decide,
    fun m key val record h =>
      (limitWorld_records m key val record h).elim (fun e => Or.inl (e ▸ rfl))
        (fun e => Or.inr (e ▸ rfl)),
    rfl, rfl, rfl⟩

/-- C11, amended: for a valid id, when the lookup by `parseInt` of the
segment finds no record the get-by-id and patch handlers of either model
answer 404, patch without any update; restore, soft-delete and hard-delete
make no lookup and answer 204 whenever their store operation completes, so
that two runs on the same id, in whatever states of the store the operation
completes, give the same 204 answer.  Below `2^53` the value of `parseInt` is
the value of the segment. -/
theorem absent_record (m : Model) (id : String) (req : Request)
    (hid : validPositiveInteger id = true) :
    (∀ w : World,
      w.findOne m "id" (parseInt id) = Outcome.resolve none →
      (getById m w id Res.fresh).trace
        = [Effect.findOne m "id" (parseInt id),
           Effect.send 404 (message ("This " ++ m.word ++ " does not exist !"))] ∧
      (patch m w id req Res.fresh).trace
        = [Effect.findOne m "id" (parseInt id),
           Effect.send 404 (message ("This " ++ m.word ++ " does not exist !"))]) ∧
    (∀ w : World,
      (w.restore m (parseInt id) = Outcome.resolve () →
        (untrash m w id Res.fresh).trace
          = [Effect.restore m (parseInt id),
             Effect.send 204 (JsVal.obj [])]) ∧
      (w.destroy m (parseInt id) false = Outcome.resolve () →
        (trash m w id Res.fresh).trace
          = [Effect.destroy m (parseInt id) false,
             Effect.send 204 (JsVal.obj [])]) ∧
      (w.destroy m (parseInt id) true = Outcome.resolve () →
        (hardDelete m w id Res.fresh).trace
          = [Effect.destroy m (parseInt id) true,
             Effect.send 204 (JsVal.obj [])])) ∧
    (∀ first second : World,
      (first.restore m (parseInt id) = Outcome.resolve () →
        second.restore m (parseInt id) = Outcome.resolve () →
        (untrash m second id Res.fresh).trace = (untrash m first id Res.fresh).trace) ∧
      (first.destroy m (parseInt id) false = Outcome.resolve () →
        second.destroy m (parseInt id) false = Outcome.resolve () →
        (trash m second id Res.fresh).trace = (trash m first id Res.fresh).trace) ∧
      (first.destroy m (parseInt id) true = Outcome.resolve () →
        second.destroy m (parseInt id) true = Outcome.resolve () →
        (hardDelete m second id Res.fresh).trace = (hardDelete m first id Res.fresh).trace)) ∧
    (decimalValue id.toList < 2 ^ 53 → parseInt id = JsVal.num (decimalValue id.toList)) := by
  have htr := parseInt_valid_truthy id hid
  have hget : ∀ w : World,
      w.findOne m "id" (parseInt id) = Outcome.resolve none →
      (getById m w id Res.fresh).trace
        = [Effect.findOne m "id" (parseInt id),
           Effect.send 404 (message ("This " ++ m.word ++ " does not exist !"))] ∧
      (patch m w id req Res.fresh).trace
        = [Effect.findOne m "id" (parseInt id),
           Effect.send 404 (message ("This " ++ m.word ++ " does not exist !"))] := by
    intro w hfind
    constructor <;>
      simp [getById, patch, htr, hfind, Res.json, Res.call, Res.status, Res.fresh, Res.answered]
  have hrestore : ∀ w : World,
      w.restore m (parseInt id) = Outcome.resolve () →
      (untrash m w id Res.fresh).trace
        = [Effect.restore m (parseInt id),
           Effect.send 204 (JsVal.obj [])] := by
    intro w hop
    simp [untrash, htr, hop, Res.json, Res.call, Res.status, Res.fresh, Res.answered]
  have htrash : ∀ w : World,
      w.destroy m (parseInt id) false = Outcome.resolve () →
      (trash m w id Res.fresh).trace
        = [Effect.destroy m (parseInt id) false,
           Effect.send 204 (JsVal.obj [])] := by
    intro w hop
    simp [trash, htr, hop, Res.json, Res.call, Res.status, Res.fresh, Res.answered]
  have hdelete : ∀ w : World,
      w.destroy m (parseInt id) true = Outcome.resolve () →
      (hardDelete m w id Res.fresh).trace
        = [Effect.destroy m (parseInt id) true,
           Effect.send 204 (JsVal.obj [])] := by
    intro w hop
    simp [hardDelete, htr, hop, Res.json, Res.call, Res.status, Res.fresh, Res.answered]
  refine ⟨hget, fun w => ⟨hrestore w, htrash w, hdelete w⟩, fun first second => ⟨?_, ?_, ?_⟩,
    parseInt_valid_safe id hid⟩
  · intro h1 h2; rw [hrestore first h1, hrestore second h2]
  · intro h1 h2; rw [htrash first h1, htrash second h2]
  · intro h1 h2; rw [hdelete first h1, hdelete second h2]

/-- Witness of C11, amended: cocktail 7 does not exist in the sample
world. -/
theorem absent_record_witness :
    (getById Model.Cocktail sampleWorld "7" Res.fresh).trace
      = [Effect.findOne Model.Cocktail "id" (JsVal.num 7),
         Effect.send 404 (message "This cocktail does not exist !")] ∧
    (hardDelete Model.Cocktail sampleWorld "7" Res.fresh).trace
      = [Effect.destroy Model.Cocktail (JsVal.num 7) true,
         Effect.send 204 (JsVal.obj [])] ∧
    parseInt "7" = JsVal.num 7 :=
  ⟨((absent_record Model.Cocktail "7"
      (request Method.PATCH ["cocktails", "7"] goodHeader (JsVal.obj [])) (by decide)).1
      sampleWorld rfl).1,
    ((absent_record Model.Cocktail "7"
      (request Method.PATCH ["cocktails", "7"] goodHeader (JsVal.obj [])) (by decide)).2.1
      sampleWorld).2.2 rfl,
    (absent_record Model.Cocktail "7"
      (request Method.PATCH ["cocktails", "7"] goodHeader (JsVal.obj [])) (by decide)).2.2.2
      (by decide)⟩

/-! ### Faults of the store -/

theorem fault_login (w : World) (req : Request) :
    StoreFaultAnswered w (login w req Res.fresh).trace := by
  unfold login
  simp only []
  repeat' split
  all_goals
    intro eff heff e he
    simp [Res.json, Res.call, Res.status, Res.fresh, Res.answered] at heff
    simp only [Res.json, Res.call, Res.status, Res.fresh, Res.answered, statusOf, bodyOf,
      List.nil_append, List.cons_append, Bool.false_eq_true, if_false]
    rcases heff with rfl | rfl | rfl | rfl <;> simp_all [World.fault]

theorem fault_list (m : Model) (w : World) :
    StoreFaultAnswered w (list m w Res.fresh).trace := by
  unfold list
  simp only []
  repeat' split
  all_goals
    intro eff heff e he
    simp [Res.json, Res.call, Res.status, Res.fresh, Res.answered] at heff
    simp only [Res.json, Res.call, Res.status, Res.fresh, Res.answered, statusOf, bodyOf,
      List.nil_append, List.cons_append, Bool.false_eq_true, if_false]
    rcases heff with rfl | rfl | rfl | rfl <;> simp_all [World.fault]

theorem fault_getById (m : Model) (w : World) (id : String) :
    StoreFaultAnswered w (getById m w id Res.fresh).trace := by
  unfold getById
  simp only []
  repeat' split
  all_goals
    intro eff heff e he
    simp [Res.json, Res.call, Res.status, Res.fresh, Res.answered] at heff
    simp only [Res.json, Res.call, Res.status, Res.fresh, Res.answered, statusOf, bodyOf,
      List.nil_append, List.cons_append, Bool.false_eq_true, if_false]
    rcases heff with rfl | rfl | rfl | rfl <;> simp_all [World.fault]

theorem fault_userCreate (w : World) (req : Request) :
    StoreFaultAnswered w (userCreate w req Res.fresh).trace := by
  unfold userCreate
  simp only []
  repeat' split
  all_goals
    intro eff heff e he
    simp [Res.json, Res.call, Res.status, Res.fresh, Res.answered] at heff
    simp only [Res.json, Res.call, Res.status, Res.fresh, Res.answered, statusOf, bodyOf,
      List.nil_append, List.cons_append, Bool.false_eq_true, if_false]
    rcases heff with rfl | rfl | rfl | rfl <;> simp_all [World.fault]

theorem fault_cocktailCreate (w : World) (req : Request) :
    StoreFaultAnswered w (cocktailCreate w req Res.fresh).trace := by
  unfold cocktailCreate
  simp only []
  repeat' split
  all_goals
    intro eff heff e he
    simp [Res.json, Res.call, Res.status, Res.fresh, Res.answered] at heff
    simp only [Res.json, Res.call, Res.status, Res.fresh, Res.answered, statusOf, bodyOf,
      List.nil_append, List.cons_append, Bool.false_eq_true, if_false]
    rcases heff with rfl | rfl | rfl | rfl <;> simp_all [World.fault]

theorem fault_patch (m : Model) (w : World) (id : String) (req : Request) :
    StoreFaultAnswered w (patch m w id req Res.fresh).trace := by
  unfold patch
  simp only []
  repeat' split
  all_goals
    intro eff heff e he
    simp [Res.json, Res.call, Res.status, Res.fresh, Res.answered] at heff
    simp only [Res.json, Res.call, Res.status, Res.fresh, Res.answered, statusOf, bodyOf,
      List.nil_append, List.cons_append, Bool.false_eq_true, if_false]
    rcases heff with rfl | rfl | rfl | rfl <;> simp_all [World.fault]

theorem fault_untrash (m : Model) (w : World) (id : String) :
    StoreFaultAnswered w (untrash m w id Res.fresh).trace := by
  unfold untrash
  simp only []
  repeat' split
  all_goals
    intro eff heff e he
    simp [Res.json, Res.call, Res.status, Res.fresh, Res.answered] at heff
    simp only [Res.json, Res.call, Res.status, Res.fresh, Res.answered, statusOf, bodyOf,
      List.nil_append, List.cons_append, Bool.false_eq_true, if_false]
    rcases heff with rfl | rfl | rfl | rfl <;> simp_all [World.fault]

theorem fault_trash (m : Model) (w : World) (id : String) :
    StoreFaultAnswered w (trash m w id Res.fresh).trace := by
  unfold trash
  simp only []
  repeat' split
  all_goals
    intro eff heff e he
    simp [Res.json, Res.call, Res.status, Res.fresh, Res.answered] at heff
    simp only [Res.json, Res.call, Res.status, Res.fresh, Res.answered, statusOf, bodyOf,
      List.nil_append, List.cons_append, Bool.false_eq_true, if_false]
    rcases heff with rfl | rfl | rfl | rfl <;> simp_all [World.fault]

theorem fault_hardDelete (m : Model) (w : World) (id : String) :
    StoreFaultAnswered w (hardDelete m w id Res.fresh).trace := by
  unfold hardDelete
  simp only []
  repeat' split
  all_goals
    intro eff heff e he
    simp [Res.json, Res.call, Res.status, Res.fresh, Res.answered] at heff
    simp only [Res.json, Res.call, Res.status, Res.fresh, Res.answered, statusOf, bodyOf,
      List.nil_append, List.cons_append, Bool.false_eq_true, if_false]
    rcases heff with rfl | rfl | rfl | rfl <;> simp_all [World.fault]

theorem fault_handler_cons (w : World) (h : Handler) (t : List Effect)
    (ht : StoreFaultAnswered w t) : StoreFaultAnswered w (Effect.handler h :: t) := by
  intro eff heff e he
  simp only [List.mem_cons] at heff
  rcases heff with rfl | heff
  · simp [World.fault] at he
  · simpa [statusOf, bodyOf] using ht eff heff e he

/-- C12: in every handler, a store operation of the trace that fails with a
fault `e` is answered with status 500 and the body with `message` equal to
`Database Error` and `error` equal to `e`. -/
theorem store_fault_answered (h : Handler) (w : World) (req : Request) (id : String)
    (eff : Effect) (heff : eff ∈ (h.run w req id Res.fresh).trace)
    (e : JsVal) (he : w.fault eff = some e) :
    statusOf (h.run w req id Res.fresh).trace = some 500 ∧
    bodyOf (h.run w req id Res.fresh).trace
      = some (JsVal.obj [("message", JsVal.str "Database Error"), ("error", e)]) := by
  have key : StoreFaultAnswered w (h.run w req id Res.fresh).trace := by
    cases h
    case root =>
      intro eff heff e he
      simp [Handler.run, Res.json, Res.call, Res.status, Res.fresh, Res.answered] at heff
      rcases heff with rfl | rfl <;> simp [World.fault] at he
    case notImplemented =>
      intro eff heff e he
      simp [Handler.run, Res.json, Res.call, Res.status, Res.fresh, Res.answered] at heff
      rcases heff with rfl | rfl <;> simp [World.fault] at he
    case login =>
      simp only [Handler.run]
      rw [login_frame w req (Res.fresh.call (Effect.handler Handler.login)) rfl rfl]
      exact fault_handler_cons w _ _ (fault_login w req)
    case userList =>
      simp only [Handler.run]
      rw [list_frame Model.User w (Res.fresh.call (Effect.handler Handler.userList)) rfl rfl]
      exact fault_handler_cons w _ _ (fault_list Model.User w)
    case userGet =>
      simp only [Handler.run]
      rw [getById_frame Model.User w id (Res.fresh.call (Effect.handler Handler.userGet)) rfl rfl]
      exact fault_handler_cons w _ _ (fault_getById Model.User w id)
    case userCreate =>
      simp only [Handler.run]
      rw [userCreate_frame w req (Res.fresh.call (Effect.handler Handler.userCreate)) rfl rfl]
      exact fault_handler_cons w _ _ (fault_userCreate w req)
    case userPatch =>
      simp only [Handler.run]
      rw [patch_frame Model.User w id req (Res.fresh.call (Effect.handler Handler.userPatch)) rfl rfl]
      exact fault_handler_cons w _ _ (fault_patch Model.User w id req)
    case userUntrash =>
      simp only [Handler.run]
      rw [untrash_frame Model.User w id (Res.fresh.call (Effect.handler Handler.userUntrash)) rfl rfl]
      exact fault_handler_cons w _ _ (fault_untrash Model.User w id)
    case userTrash =>
      simp only [Handler.run]
      rw [trash_frame Model.User w id (Res.fresh.call (Effect.handler Handler.userTrash)) rfl rfl]
      exact fault_handler_cons w _ _ (fault_trash Model.User w id)
    case userDelete =>
      simp only [Handler.run]
      rw [hardDelete_frame Model.User w id (Res.fresh.call (Effect.handler Handler.userDelete)) rfl rfl]
      exact fault_handler_cons w _ _ (fault_hardDelete Model.User w id)
    case cocktailList =>
      simp only [Handler.run]
      rw [list_frame Model.Cocktail w (Res.fresh.call (Effect.handler Handler.cocktailList)) rfl rfl]
      exact fault_handler_cons w _ _ (fault_list Model.Cocktail w)
    case cocktailGet =>
      simp only [Handler.run]
      rw [getById_frame Model.Cocktail w id (Res.fresh.call (Effect.handler Handler.cocktailGet)) rfl rfl]
      exact fault_handler_cons w _ _ (fault_getById Model.Cocktail w id)
    case cocktailCreate =>
      simp only [Handler.run]
      rw [cocktailCreate_frame w req (Res.fresh.call (Effect.handler Handler.cocktailCreate)) rfl rfl]
      exact fault_handler_cons w _ _ (fault_cocktailCreate w req)
    case cocktailPatch =>
      simp only [Handler.run]
      rw [patch_frame Model.Cocktail w id req (Res.fresh.call (Effect.handler Handler.cocktailPatch)) rfl rfl]
      exact fault_handler_cons w _ _ (fault_patch Model.Cocktail w id req)
    case cocktailUntrash =>
      simp only [Handler.run]
      rw [untrash_frame Model.Cocktail w id (Res.fresh.call (Effect.handler Handler.cocktailUntrash)) rfl rfl]
      exact fault_handler_cons w _ _ (fault_untrash Model.Cocktail w id)
    case cocktailTrash =>
      simp only [Handler.run]
      rw [trash_frame Model.Cocktail w id (Res.fresh.call (Effect.handler Handler.cocktailTrash)) rfl rfl]
      exact fault_handler_cons w _ _ (fault_trash Model.Cocktail w id)
    case cocktailDelete =>
      simp only [Handler.run]
      rw [hardDelete_frame Model.Cocktail w id (Res.fresh.call (Effect.handler Handler.cocktailDelete)) rfl rfl]
      exact fault_handler_cons w _ _ (fault_hardDelete Model.Cocktail w id)
  exact key eff heff e he

/-- Witness of C12: the list of cocktails on a store whose reads fail. -/
theorem store_fault_answered_witness :
    brokenWorld.fault (Effect.findAll Model.Cocktail) = some (JsVal.str "ECONNREFUSED") ∧
    statusOf (Handler.cocktailList.run brokenWorld
        (request Method.GET ["cocktails"] none (JsVal.obj [])) "" Res.fresh).trace = some 500 ∧
    bodyOf (Handler.cocktailList.run brokenWorld
        (request Method.GET ["cocktails"] none (JsVal.obj [])) "" Res.fresh).trace
      = some (JsVal.obj [("message", JsVal.str "Database Error"),
          ("error", JsVal.str "ECONNREFUSED")]) :=
  ⟨rfl,
    store_fault_answered Handler.cocktailList brokenWorld
      (request Method.GET ["cocktails"] none (JsVal.obj [])) ""
      (Effect.findAll Model.Cocktail)
      (by
        rw [show (Handler.cocktailList.run brokenWorld
            (request Method.GET ["cocktails"] none (JsVal.obj [])) "" Res.fresh).trace
          = [Effect.handler Handler.cocktailList, Effect.findAll Model.Cocktail,
             Effect.send 500 (failure "Database Error" (JsVal.str "ECONNREFUSED"))] from rfl]
        simp)
      (JsVal.str "ECONNREFUSED") rfl⟩

/-! ### Failure of the signature -/

/-- C13, as stated, fails: without a signing secret `jwt.sign` fails, and the
login handler answers that request with status 500. -/
theorem signing_failure_answered :
    misconfiguredWorld.sign (tokenPayload alice) (envVal misconfiguredWorld.JWT_SECRET)
        (envVal misconfiguredWorld.JWT_DURING)
      = Except.error (JsVal.str "secretOrPrivateKey must have a value") ∧
    (login misconfiguredWorld (request Method.POST ["auth", "login"] none aliceLogin)
        Res.fresh).trace
      = [Effect.findOne Model.User "email" (JsVal.str "alice@example.com"),
         Effect.compare (JsVal.str "secret") (JsVal.str "$2b$10$stored"),
         Effect.sign (tokenPayload alice) JsVal.undefined (JsVal.str "1 hour"),
         Effect.send 500 (failure "Login process failed"
           (JsVal.str "secretOrPrivateKey must have a value"))] ∧
    statusOf (login misconfiguredWorld (request Method.POST ["auth", "login"] none aliceLogin)
        Res.fresh).trace = some 500 :=
  ⟨rfl, rfl, rfl⟩

/-- C13, amended: a failure of `jwt.sign` during login is caught by the
handler and answered, for that request, with status 500 and the body with
`message` equal to `Login process failed` and `error` equal to the failure;
no token is sent. -/
theorem signing_failure_caught (w : World) (req : Request) (user err : JsVal)
    (hemail : (req.body.get "email").truthy = true)
    (hpassword : (req.body.get "password").truthy = true)
    (hfind : w.findOne Model.User "email" (req.body.get "email")
      = Outcome.resolve (some user))
    (hcompare : w.compare (req.body.get "password") (user.get "password")
      = Outcome.resolve true)
    (hsign : w.sign (tokenPayload user) (envVal w.JWT_SECRET) (envVal w.JWT_DURING)
      = Except.error err) :
    (login w req Res.fresh).trace
      = [Effect.findOne Model.User "email" (req.body.get "email"),
         Effect.compare (req.body.get "password") (user.get "password"),
         Effect.sign (tokenPayload user) (envVal w.JWT_SECRET) (envVal w.JWT_DURING),
         Effect.send 500
          (JsVal.obj [("message", JsVal.str "Login process failed"), ("error", err)])] ∧
    statusOf (login w req Res.fresh).trace = some 500 := by
  have htrace : (login w req Res.fresh).trace
      = [Effect.findOne Model.User "email" (req.body.get "email"),
         Effect.compare (req.body.get "password") (user.get "password"),
         Effect.sign (tokenPayload user) (envVal w.JWT_SECRET) (envVal w.JWT_DURING),
         Effect.send 500
          (JsVal.obj [("message", JsVal.str "Login process failed"), ("error", err)])] := by
    simp [login, hemail, hpassword, hfind, hcompare, hsign, failure, Res.json, Res.call,
      Res.status, Res.fresh, Res.answered]
  exact ⟨htrace, by rw [htrace]; rfl⟩

/-- Witness of C13, amended: the login of `alice` without a signing secret. -/
theorem signing_failure_caught_witness :
    statusOf (login misconfiguredWorld (request Method.POST ["auth", "login"] none aliceLogin)
        Res.fresh).trace = some 500 :=
  (signing_failure_caught misconfiguredWorld
    (request Method.POST ["auth", "login"] none aliceLogin) alice
    (JsVal.str "secretOrPrivateKey must have a value") rfl rfl rfl rfl rfl).2

/-! ### One answer per request -/

theorem once_login (w : World) (req : Request) :
    answersOnce (login w req Res.fresh).trace = true := by
  unfold login
  simp only []
  repeat' split
  all_goals
    simp [answersOnce, sends, resends, Res.json, Res.call, Res.status, Res.fresh, Res.answered]

theorem once_list (m : Model) (w : World) :
    answersOnce (list m w Res.fresh).trace = true := by
  unfold list
  simp only []
  repeat' split
  all_goals
    simp [answersOnce, sends, resends, Res.json, Res.call, Res.status, Res.fresh, Res.answered]

theorem once_getById (m : Model) (w : World) (id : String)
    (htr : (parseInt id).truthy = true) :
    answersOnce (getById m w id Res.fresh).trace = true := by
  unfold getById
  simp only []
  simp only [htr, Bool.not_true, Bool.false_eq_true, if_false]
  repeat' split
  all_goals
    simp [answersOnce, sends, resends, Res.json, Res.call, Res.status, Res.fresh, Res.answered]

theorem once_userCreate (w : World) (req : Request) :
    answersOnce (userCreate w req Res.fresh).trace = true := by
  unfold userCreate
  simp only []
  repeat' split
  all_goals
    simp [answersOnce, sends, resends, Res.json, Res.call, Res.status, Res.fresh, Res.answered]

theorem once_cocktailCreate (w : World) (req : Request) :
    answersOnce (cocktailCreate w req Res.fresh).trace = true := by
  unfold cocktailCreate
  simp only []
  repeat' split
  all_goals
    simp [answersOnce, sends, resends, Res.json, Res.call, Res.status, Res.fresh, Res.answered]

theorem once_patch (m : Model) (w : World) (id : String) (req : Request) :
    answersOnce (patch m w id req Res.fresh).trace = true := by
  unfold patch
  simp only []
  repeat' split
  all_goals
    simp [answersOnce, sends, resends, Res.json, Res.call, Res.status, Res.fresh, Res.answered]

theorem once_untrash (m : Model) (w : World) (id : String) :
    answersOnce (untrash m w id Res.fresh).trace = true := by
  unfold untrash
  simp only []
  repeat' split
  all_goals
    simp [answersOnce, sends, resends, Res.json, Res.call, Res.status, Res.fresh, Res.answered]

theorem once_trash (m : Model) (w : World) (id : String) :
    answersOnce (trash m w id Res.fresh).trace = true := by
  unfold trash
  simp only []
  repeat' split
  all_goals
    simp [answersOnce, sends, resends, Res.json, Res.call, Res.status, Res.fresh, Res.answered]

theorem once_hardDelete (m : Model) (w : World) (id : String) :
    answersOnce (hardDelete m w id Res.fresh).trace = true := by
  unfold hardDelete
  simp only []
  repeat' split
  all_goals
    simp [answersOnce, sends, resends, Res.json, Res.call, Res.status, Res.fresh, Res.answered]

theorem once_handler_cons (h : Handler) (t : List Effect) :
    answersOnce (Effect.handler h :: t) = answersOnce t := by
  simp [answersOnce, sends, resends]

/-- C14, evaluated on the code: on the id `abc` the get-by-id handler of
either model calls `json` twice, the second time on a response already sent;
every other run of a handler (every handler but get-by-id, and get-by-id on
an id that `parseInt` accepts) sends exactly one answer. -/
theorem second_send_on_invalid_id :
    (∀ (m : Model) (w : World),
      (getById m w "abc" Res.fresh).trace
        = [Effect.send 200 (JsVal.num 400),
           Effect.headersSent 200 (message "Missing Parameter")] ∧
      resends (getById m w "abc" Res.fresh).trace = 1 ∧
      answersOnce (getById m w "abc" Res.fresh).trace = false) ∧
    (∀ (h : Handler) (w : World) (req : Request) (id : String),
      answersOnce (h.run w req id Res.fresh).trace = true ∨
      ((h = Handler.userGet ∨ h = Handler.cocktailGet) ∧ (parseInt id).truthy = false)) := by
  refine ⟨fun m w => ⟨rfl, rfl, rfl⟩, fun h w req id => ?_⟩
  cases h
  case root => left; rfl
  case notImplemented => left; rfl
  case login =>
    left
    simp only [Handler.run]
    rw [login_frame w req (Res.fresh.call (Effect.handler Handler.login)) rfl rfl]
    exact (once_handler_cons _ _).trans (once_login w req)
  case userList =>
    left
    simp only [Handler.run]
    rw [list_frame Model.User w (Res.fresh.call (Effect.handler Handler.userList)) rfl rfl]
    exact (once_handler_cons _ _).trans (once_list Model.User w)
  case userGet =>
    cases htr : (parseInt id).truthy with
    | false => right; exact ⟨Or.inl rfl, rfl⟩
    | true =>
      left
      simp only [Handler.run]
      rw [getById_frame Model.User w id (Res.fresh.call (Effect.handler Handler.userGet))
        rfl rfl]
      exact (once_handler_cons _ _).trans (once_getById Model.User w id htr)
  case userCreate =>
    left
    simp only [Handler.run]
    rw [userCreate_frame w req (Res.fresh.call (Effect.handler Handler.userCreate)) rfl rfl]
    exact (once_handler_cons _ _).trans (once_userCreate w req)
  case userPatch =>
    left
    simp only [Handler.run]
    rw [patch_frame Model.User w id req (Res.fresh.call (Effect.handler Handler.userPatch))
      rfl rfl]
    exact (once_handler_cons _ _).trans (once_patch Model.User w id req)
  case userUntrash =>
    left
    simp only [Handler.run]
    rw [untrash_frame Model.User w id (Res.fresh.call (Effect.handler Handler.userUntrash))
      rfl rfl]
    exact (once_handler_cons _ _).trans (once_untrash Model.User w id)
  case userTrash =>
    left
    simp only [Handler.run]
    rw [trash_frame Model.User w id (Res.fresh.call (Effect.handler Handler.userTrash))
      rfl rfl]
    exact (once_handler_cons _ _).trans (once_trash Model.User w id)
  case userDelete =>
    left
    simp only [Handler.run]
    rw [hardDelete_frame Model.User w id (Res.fresh.call (Effect.handler Handler.userDelete))
      rfl rfl]
    exact (once_handler_cons _ _).trans (once_hardDelete Model.User w id)
  case cocktailList =>
    left
    simp only [Handler.run]
    rw [list_frame Model.Cocktail w (Res.fresh.call (Effect.handler Handler.cocktailList))
      rfl rfl]
    exact (once_handler_cons _ _).trans (once_list Model.Cocktail w)
  case cocktailGet =>
    cases htr : (parseInt id).truthy with
    | false => right; exact ⟨Or.inr rfl, rfl⟩
    | true =>
      left
      simp only [Handler.run]
      rw [getById_frame Model.Cocktail w id
        (Res.fresh.call (Effect.handler Handler.cocktailGet)) rfl rfl]
      exact (once_handler_cons _ _).trans (once_getById Model.Cocktail w id htr)
  case cocktailCreate =>
    left
    simp only [Handler.run]
    rw [cocktailCreate_frame w req (Res.fresh.call (Effect.handler Handler.cocktailCreate))
      rfl rfl]
    exact (once_handler_cons _ _).trans (once_cocktailCreate w req)
  case cocktailPatch =>
    left
    simp only [Handler.run]
    rw [patch_frame Model.Cocktail w id req
      (Res.fresh.call (Effect.handler Handler.cocktailPatch)) rfl rfl]
    exact (once_handler_cons _ _).trans (once_patch Model.Cocktail w id req)
  case cocktailUntrash =>
    left
    simp only [Handler.run]
    rw [untrash_frame Model.Cocktail w id
      (Res.fresh.call (Effect.handler Handler.cocktailUntrash)) rfl rfl]
    exact (once_handler_cons _ _).trans (once_untrash Model.Cocktail w id)
  case cocktailTrash =>
    left
    simp only [Handler.run]
    rw [trash_frame Model.Cocktail w id
      (Res.fresh.call (Effect.handler Handler.cocktailTrash)) rfl rfl]
    exact (once_handler_cons _ _).trans (once_trash Model.Cocktail w id)
  case cocktailDelete =>
    left
    simp only [Handler.run]
    rw [hardDelete_frame Model.Cocktail w id
      (Res.fresh.call (Effect.handler Handler.cocktailDelete)) rfl rfl]
    exact (once_handler_cons _ _).trans (once_hardDelete Model.Cocktail w id)

/-! ### The body of a patch -/

/-- C15, as stated, fails: `PATCH /users/9007199254740993`, a valid id,
updates the record whose id is 9007199254740992. -/
theorem patch_updates_rounded_id :
    validPositiveInteger "9007199254740993" = true ∧
    decimalValue "9007199254740993".toList = 9007199254740993 ∧
    limitRecord.get "id" = JsVal.num 9007199254740992 ∧
    (patch Model.User limitWorld "9007199254740993"
        (request Method.PATCH ["users", "9007199254740993"] goodHeader passwordChange)
        Res.fresh).trace
      = [Effect.findOne Model.User "id" (JsVal.num 9007199254740992),
         Effect.update Model.User passwordChange (JsVal.num 9007199254740992),
         Effect.send 200 (message "User Updated")] :=
  ⟨by decide, by decide, rfl, rfl⟩

/-- C15, amended: on a valid id, when the lookup by `parseInt` of the segment
finds a record, the trace of the user patch is the lookup, one update with the
request body itself and that value of `parseInt`, and the answer; every update
of the trace has the body as its values (its password field is the submitted
one) and that value as its target, and no hash is computed.  Below `2^53` the
value of `parseInt` is the value of the segment. -/
theorem patch_passes_body (w : World) (req : Request) (id : String) (record : JsVal)
    (hid : validPositiveInteger id = true)
    (hfind : w.findOne Model.User "id" (parseInt id)
      = Outcome.resolve (some record)) :
    (∃ answer,
      (patch Model.User w id req Res.fresh).trace
        = [Effect.findOne Model.User "id" (parseInt id),
           Effect.update Model.User req.body (parseInt id),
           answer] ∧
      ((∃ result, w.update Model.User req.body (parseInt id)
            = Outcome.resolve result ∧
          answer = Effect.send 200 (message "User Updated")) ∨
        (∃ err, w.update Model.User req.body (parseInt id)
            = Outcome.reject err ∧
          answer = Effect.send 500 (failure "Database Error" err)))) ∧
    (∀ m values target,
      Effect.update m values target ∈ (patch Model.User w id req Res.fresh).trace →
      m = Model.User ∧ values = req.body ∧
      values.get "password" = req.body.get "password" ∧
      target = parseInt id) ∧
    (∀ eff ∈ (patch Model.User w id req Res.fresh).trace, eff.isHash = false) ∧
    (decimalValue id.toList < 2 ^ 53 → parseInt id = JsVal.num (decimalValue id.toList)) := by
  have htr := parseInt_valid_truthy id hid
  have hshape : ∃ answer,
      (patch Model.User w id req Res.fresh).trace
        = [Effect.findOne Model.User "id" (parseInt id),
           Effect.update Model.User req.body (parseInt id), answer] ∧
      ((∃ result, w.update Model.User req.body (parseInt id) = Outcome.resolve result ∧
          answer = Effect.send 200 (message "User Updated")) ∨
        (∃ err, w.update Model.User req.body (parseInt id) = Outcome.reject err ∧
          answer = Effect.send 500 (failure "Database Error" err))) := by
    cases hupdate : w.update Model.User req.body (parseInt id) with
    | resolve result =>
      refine ⟨Effect.send 200 (message "User Updated"), ?_, Or.inl ⟨result, rfl, rfl⟩⟩
      simp [patch, htr, hfind, hupdate, Model.title, Res.json, Res.call, Res.status,
        Res.fresh, Res.answered]
    | reject err =>
      refine ⟨Effect.send 500 (failure "Database Error" err), ?_, Or.inr ⟨err, rfl, rfl⟩⟩
      simp [patch, htr, hfind, hupdate, Res.json, Res.call, Res.status, Res.fresh,
        Res.answered]
  obtain ⟨answer, htrace, hanswer⟩ := hshape
  refine ⟨⟨answer, htrace, hanswer⟩, ?_, ?_, parseInt_valid_safe id hid⟩
  · intro m values target hmem
    rw [htrace] at hmem
    simp only [List.mem_cons, List.mem_singleton, List.not_mem_nil, or_false,
      Effect.update.injEq, reduceCtorEq, false_or] at hmem
    rcases hmem with ⟨rfl, rfl, rfl⟩ | hmem
    · exact ⟨rfl, rfl, rfl, rfl⟩
    · rcases hanswer with ⟨_, _, rfl⟩ | ⟨_, _, rfl⟩ <;> cases hmem
  · intro eff hmem
    rw [htrace] at hmem
    simp only [List.mem_cons, List.mem_singleton, List.not_mem_nil, or_false] at hmem
    rcases hmem with rfl | rfl | rfl
    · rfl
    · rfl
    · rcases hanswer with ⟨_, _, rfl⟩ | ⟨_, _, rfl⟩ <;> rfl

/-- Witness of C15, amended: a patch of the password of user 1 in the sample
world. -/
theorem patch_passes_body_witness :
    (patch Model.User sampleWorld "1"
        (request Method.PATCH ["users", "1"] goodHeader passwordChange) Res.fresh).trace
      = [Effect.findOne Model.User "id" (JsVal.num 1),
         Effect.update Model.User (JsVal.obj [("password", JsVal.str "new plaintext")])
          (JsVal.num 1),
         Effect.send 200 (message "User Updated")] ∧
    Effect.hash (JsVal.str "new plaintext") (JsVal.num 10) ∉
      (patch Model.User sampleWorld "1"
        (request Method.PATCH ["users", "1"] goodHeader passwordChange) Res.fresh).trace ∧
    parseInt "1" = JsVal.num 1 :=
  ⟨rfl, fun hmem =>
    absurd ((patch_passes_body sampleWorld
      (request Method.PATCH ["users", "1"] goodHeader passwordChange) "1" alice
      (by decide) rfl).2.2.1 _ hmem) (by decide),
    (patch_passes_body sampleWorld
      (request Method.PATCH ["users", "1"] goodHeader passwordChange) "1" alice
      (by decide) rfl).2.2.2 (by decide)⟩

end CocktailApi
